import Mathlib

/-!
Verification of the coordination core of `auto_v2.py` (AutoRegistrationParallel).

Shallow embedding conventions:
- Wall-clock instants (Python `time.time()` floats) are modelled as integers
  (an arbitrary tick unit; only differences compared against the integer TTL
  thresholds matter). Successive `time.time()` readings that influence control
  flow or data are drawn from an explicit stream `clock : Nat -> Int` consumed
  in program order; readings used only inside diagnostic prints are elided.
- A profile is identified by its `profile_name` (the only field the
  coordination logic reads); the submission payload fields are irrelevant here.
- The HTTP transport, the OCR solver and the per-submission network results
  are oracles passed in as functions; `register_single_attempt`'s translation
  of a raw transport result into an Outcome is embedded exactly.
- Python `str.lower` is modelled by `String.toLower` (the marker phrases the
  code matches against are already lower-case), and Python's substring test
  `needle in hay` by splitting on the needle.
- Unbounded `while True` loops take an explicit fuel argument; theorems about
  them quantify over the fuel.
-/

set_option maxRecDepth 16000

namespace AutoV2

/-- Python substring test `needle in hay`. A non-empty needle occurs in `hay`
iff splitting `hay` on it yields at least two pieces. -/
def strContains (hay needle : String) : Bool :=
  needle.isEmpty || (hay.splitOn needle).length ≥ 2

/-- Result of one submission attempt, the `(success, error_type, full_response)`
triple returned by `register_single_attempt`. -/
structure Outcome where
  success : Bool
  tag : String
  resp : String
deriving DecidableEq

/-- Success markers of `classify_error` (auto_v2.py line 491). -/
def success_indicators : List String :=
  ["!!!true|~~|", "thành công", "thanh cong", "success"]

/-- Bad-captcha phrases of `classify_error` (lines 496-510). -/
def captcha_error_indicators : List String :=
  ["captcha không hợp lệ", "captcha khong hop le", "invalid captcha",
   "captcha sai", "sai captcha", "wrong captcha", "captcha incorrect",
   "mã xác nhận không đúng", "ma xac nhan khong dung",
   "verification code is incorrect", "captcha expired",
   "captcha hết hạn", "captcha het han"]

/-- Slot-exhaustion phrases (line 515). -/
def slot_full_indicators : List String :=
  ["phiên mua hàng đã hết số lượng", "phien mua hang da het so luong",
   "the purchase session is out of stock", "out of stock", "het slot", "hết slot"]

/-- Already-registered phrases (line 519). -/
def already_registered_indicators : List String :=
  ["cccd/hộ chiếu đã được đăng ký", "cccd/ho chieu da duoc dang ky",
   "đã đăng ký", "da dang ky", "already registered", "already exists"]

/-- Server-error phrases (line 523). -/
def server_error_indicators : List String :=
  ["service is unavailable", "server error", "internal server error",
   "lỗi hệ thống", "loi he thong"]

/-- Temporarily-closed phrases (line 527). -/
def server_closed_indicators : List String :=
  ["link đăng ký đang tạm đóng", "link dang ky dang tam dong",
   "registration link is temporarily closed", "temporarily closed",
   "tam dong", "tạm đóng"]

/-- Connectivity phrases (line 531). -/
def connection_error_indicators : List String :=
  ["connection error", "network error", "timeout", "lỗi kết nối", "loi ket noi"]

/-- Python `any(ind in body for ind in inds)`. -/
def containsAny (body : String) (inds : List String) : Bool :=
  inds.any fun i => strContains body i

/-- `classify_error` (auto_v2.py lines 475-535). The `status_code` parameter is
present in the Python signature but unused in the body. -/
def classify_error (response_text : String) (_status_code : ℕ) : String × String :=
  if response_text.isEmpty then ("EMPTY_RESPONSE", "Không có response")
  else
    let rl := response_text.toLower
    if containsAny rl success_indicators then ("SUCCESS", "Đăng ký thành công")
    else if containsAny rl captcha_error_indicators then
      ("CAPTCHA_ERROR", "Captcha không hợp lệ")
    else if containsAny rl slot_full_indicators then ("SLOT_FULL", "Đã hết slot")
    else if containsAny rl already_registered_indicators then
      ("ALREADY_REGISTERED", "Đã đăng ký rồi")
    else if containsAny rl server_error_indicators then ("SERVER_ERROR", "Lỗi server")
    else if containsAny rl server_closed_indicators then
      ("SERVER_CLOSED", "Server tạm đóng")
    else if containsAny rl connection_error_indicators then
      ("CONNECTION_ERROR", "Lỗi kết nối")
    else ("UNKNOWN_ERROR", "Lỗi không xác định: " ++ response_text.take 100)

/-- The classifier as the spec words it: an ordered rule table, first match
wins, evaluated case-insensitively on the lowercased body. -/
def spec_rule_table : List (List String × String × String) :=
  [(success_indicators, "SUCCESS", "Đăng ký thành công"),
   (captcha_error_indicators, "CAPTCHA_ERROR", "Captcha không hợp lệ"),
   (slot_full_indicators, "SLOT_FULL", "Đã hết slot"),
   (already_registered_indicators, "ALREADY_REGISTERED", "Đã đăng ký rồi"),
   (server_error_indicators, "SERVER_ERROR", "Lỗi server"),
   (server_closed_indicators, "SERVER_CLOSED", "Server tạm đóng"),
   (connection_error_indicators, "CONNECTION_ERROR", "Lỗi kết nối")]

/-- Spec-side classifier (spec section 4.3): empty body first, then the rule
table in precedence order, else UNKNOWN_ERROR with the first 100 characters of
the body as snippet. -/
def classifySpec (body : String) : String × String :=
  if body.isEmpty then ("EMPTY_RESPONSE", "Không có response")
  else
    match spec_rule_table.find? (fun r => containsAny body.toLower r.1) with
    | some r => r.2
    | none => ("UNKNOWN_ERROR", "Lỗi không xác định: " ++ body.take 100)

/-- Result of the raw registration HTTP call inside `register_single_attempt`:
a status/body pair, a timeout, or any other exception. -/
inductive NetResult
  | ok (status : ℕ) (body : String)
  | timeout
  | exc (msg : String)
deriving DecidableEq

/-- The outcome `register_single_attempt` derives from the transport result
(auto_v2.py lines 568-589): status 503/500/other-non-200 short-circuit, body
classification only on status 200; timeout and exceptions get their own tags. -/
def attempt_outcome : NetResult → Outcome
  | .timeout => ⟨false, "TIMEOUT", "Request timeout"⟩
  | .exc m => ⟨false, "EXCEPTION", m⟩
  | .ok status body =>
    if status = 503 then ⟨false, "SERVER_503", "HTTP 503 Service Unavailable"⟩
    else if status = 500 then ⟨false, "SERVER_500", "HTTP 500 Internal Server Error"⟩
    else if status ≠ 200 then
      ⟨false, "HTTP_ERROR", "HTTP " ++ toString status ++ ": " ++ body.take 100⟩
    else if (classify_error body status).1 = "SUCCESS" then ⟨true, "SUCCESS", body⟩
    else ⟨false, (classify_error body status).1,
          "[HTTP " ++ toString status ++ "] " ++ body⟩

/-! Session pool (auto_v2.py lines 80-84, 266-281, 307-350, 1098-1100). -/

/-- Idle pool size and in-flight session count; the two counters guarded by
`session_lock` in the source. -/
structure PoolState where
  idle : ℕ
  inflight : ℕ
deriving DecidableEq

/-- `self.max_pool_size = max_workers + 8` (line 82). -/
def max_pool_size (w : ℕ) : ℕ := w + 8

/-- `self.hard_cap = max_workers + 16` (line 83). -/
def hard_cap (w : ℕ) : ℕ := w + 16

/-- `init_session_pool` (lines 266-281): clears the pool and creates
`pool_size` fresh idle sessions. -/
def init_session_pool (pool_size : ℕ) : PoolState :=
  ⟨pool_size, 0⟩

/-- Pool size chosen in `run` (line 1099): `max(max_workers, len(profiles) + 5)`. -/
def run_pool_size (w nProfiles : ℕ) : ℕ :=
  max w (nProfiles + 5)

/-- `get_session_from_pool` (lines 307-333): pop an idle session if any;
otherwise create a new session when under the hard cap, or unconditionally when
the stop event is set; otherwise spin (modelled as `none`, no state change). -/
def get_session_from_pool (w : ℕ) (stop : Bool) (s : PoolState) : Option PoolState :=
  if 0 < s.idle then some ⟨s.idle - 1, s.inflight + 1⟩
  else if s.idle + s.inflight < hard_cap w then some ⟨s.idle, s.inflight + 1⟩
  else if stop then some ⟨s.idle, s.inflight + 1⟩
  else none

/-- `return_session_to_pool` (lines 335-350): decrement inflight; re-append the
session while the idle pool is below the soft cap, else close it. -/
def return_session_to_pool (w : ℕ) (s : PoolState) : PoolState :=
  ⟨if s.idle < max_pool_size w then s.idle + 1 else s.idle, s.inflight - 1⟩

/-- Pool events recorded by a submission attempt. -/
inductive PEvent
  | acq
  | rel
deriving DecidableEq

/-- `register_single_attempt` with its pool interaction (lines 550-592): the
session is acquired on entry and the `finally` block releases it on every exit
path — normal classification, timeout, and any other exception. `none` means
the acquire itself never completed (the spin loop never returned). -/
def register_single_attempt_pool (w : ℕ) (stop : Bool) (net : NetResult)
    (s : PoolState) : Option (Outcome × PoolState × List PEvent) :=
  match get_session_from_pool w stop s with
  | none => none
  | some s1 =>
    match net with
    | .timeout =>
      some (⟨false, "TIMEOUT", "Request timeout"⟩,
            return_session_to_pool w s1, [PEvent.acq, PEvent.rel])
    | .exc m =>
      some (⟨false, "EXCEPTION", m⟩,
            return_session_to_pool w s1, [PEvent.acq, PEvent.rel])
    | .ok status body =>
      some (attempt_outcome (.ok status body),
            return_session_to_pool w s1, [PEvent.acq, PEvent.rel])

/-! Captcha lifecycle (auto_v2.py lines 352-473). -/

/-- Observable behaviour of one iteration of the `get_fresh_captcha` retry
loop: the LoadCaptcha response (status and whether the image-src regex
matched), the image download status, and the OCR output. `none` anywhere means
a timeout, connection error, request error or other exception at that stage. -/
structure AttemptEnv where
  loadResp : Option (ℕ × Bool)
  imgResp : Option ℕ
  ocrOut : Option String

/-- One iteration of `get_fresh_captcha`'s loop (lines 379-452): any non-200
status, missing image reference, download failure, exception, or OCR output
failing the 5-character format check falls through to the next attempt
(`none`); only a well-formed OCR result is returned. -/
def run_captcha_attempt (a : AttemptEnv) : Option String :=
  match a.loadResp with
  | none => none
  | some (st, found) =>
    if st ≠ 200 then none
    else if !found then none
    else
      match a.imgResp with
      | none => none
      | some ist =>
        if ist ≠ 200 then none
        else
          match a.ocrOut with
          | none => none
          | some tok => if tok.isEmpty || tok.length ≠ 5 then none else some tok

/-- `get_fresh_captcha` (lines 352-459): retry the attempt loop without delay
until an attempt yields a valid token, then pair it with the wall-clock reading
taken at that moment. `env i` is the behaviour of attempt `i`, `clock i` the
`time.time()` reading at attempt `i`'s success point; the unbounded `while
True` carries explicit fuel. -/
def get_fresh_captcha (env : ℕ → AttemptEnv) (clock : ℕ → ℤ) :
    ℕ → ℕ → Option (String × ℤ)
  | 0, _ => none
  | fuel + 1, i =>
    match run_captcha_attempt (env i) with
    | some tok => some (tok, clock i)
    | none => get_fresh_captcha env clock fuel (i + 1)

/-- `is_captcha_valid` (lines 461-473): `time.time() - captcha_timestamp <
ttl_seconds`, with `now` made explicit. -/
def is_captcha_valid (now captcha_timestamp ttl_seconds : ℤ) : Bool :=
  decide (now - captcha_timestamp < ttl_seconds)

/-! Fan-out dispatcher (auto_v2.py lines 594-655). -/

/-- Events observable from the dispatcher: a registration attempt actually
submitted for a profile name, or an inter-chunk sleep in milliseconds. -/
inductive Event
  | attemptEv (name : String)
  | sleepEv (ms : ℤ)
deriving DecidableEq

/-- Slicing loop with an explicit iteration bound: with `w > 0` the Python
loop `for i in range(0, len(l), w)` runs at most `len(l)` iterations, so a
fuel of `l.length` is exact. -/
def chunksOfGo (w : ℕ) : ℕ → List α → List (List α)
  | 0, _ => []
  | fuel + 1, l => if l.isEmpty then [] else l.take w :: chunksOfGo w fuel (l.drop w)

/-- Python `[profiles[i:i + w] for i in range(0, len(profiles), w)]` for
`w > 0` (a step of 0 raises in Python and never occurs: `max_workers ≥ 1`). -/
def chunksOf (w : ℕ) (l : List α) : List (List α) :=
  if w = 0 then [] else chunksOfGo w l.length l

/-- Chunk list of `register_batch_with_shared_captcha` (lines 615-619): split
only when there are more profiles than workers. -/
def batch_chunks (w : ℕ) (names : List String) : List (List String) :=
  if w < names.length then chunksOf w names else [names]

/-- The outcome written for a whole chunk skipped by the safety-TTL check
(line 628). -/
def expired_outcome : Outcome :=
  ⟨false, "CAPTCHA_EXPIRED", "Captcha expired before batch"⟩

/-- The chunk loop of `register_batch_with_shared_captcha` (lines 621-653).
Per chunk: one wall-clock reading for the 55-second safety-TTL check; if it
fails, every submission of the chunk is marked `CAPTCHA_EXPIRED` and nothing
is executed (the `continue` also skips the inter-chunk sleep); otherwise every
submission runs (`att` abstracts `register_single_attempt`) and a 30 ms sleep
follows when further chunks remain. Returns (result map as an association
list, event trace, next clock index). -/
def run_chunks (att : String → Outcome) (clock : ℕ → ℤ) (ts : ℤ) :
    List (List String) → ℕ → List (String × Outcome) × List Event × ℕ
  | [], t => ([], [], t)
  | c :: rest, t =>
    if is_captcha_valid (clock t) ts 55 then
      let r := run_chunks att clock ts rest (t + 1)
      (c.map (fun n => (n, att n)) ++ r.1,
       c.map (fun n => Event.attemptEv n)
         ++ (if rest.isEmpty then [] else [Event.sleepEv 30]) ++ r.2.1,
       r.2.2)
    else
      let r := run_chunks att clock ts rest (t + 1)
      (c.map (fun n => (n, expired_outcome)) ++ r.1, r.2.1, r.2.2)

/-- `register_batch_with_shared_captcha` (lines 594-655). -/
def register_batch_with_shared_captcha (w : ℕ) (att : String → Outcome)
    (clock : ℕ → ℤ) (names : List String) (ts : ℤ) (t : ℕ) :
    List (String × Outcome) × List Event × ℕ :=
  run_chunks att clock ts (batch_chunks w names) t

/-- The dispatch schedule as the spec words it: chunks strictly in order, a
fixed 30 ms pause after every chunk except the last. -/
def spec_chunk_trace : List (List String) → List Event
  | [] => []
  | [c] => c.map Event.attemptEv
  | c :: rest => c.map Event.attemptEv ++ [Event.sleepEv 30] ++ spec_chunk_trace rest

/-! Tracking store (auto_v2.py lines 69-72, 813-851). The code keeps both a
per-profile map of successful pairs and a flattened set of
(profile, date, session) tuples; only the flattened set is ever read
(`is_profile_successful`), so it is the one modelled. -/

/-- Thread-safe tracking state: exhausted pairs, per-date registrations and
the flattened successful-tuple set. -/
structure TrackState where
  slot_full_pairs : List (ℤ × ℤ)
  already_registered : List (String × ℤ)
  successful_pairs : List (String × ℤ × ℤ)
deriving DecidableEq

/-- `is_slot_full` (lines 818-820). -/
def is_slot_full (st : TrackState) (d s : ℤ) : Bool :=
  decide ((d, s) ∈ st.slot_full_pairs)

/-- `mark_slot_full` (lines 814-816). -/
def mark_slot_full (st : TrackState) (d s : ℤ) : TrackState :=
  { st with slot_full_pairs := (d, s) :: st.slot_full_pairs }

/-- `is_profile_already_registered_for_date` (lines 828-831). -/
def is_profile_already_registered_for_date (st : TrackState) (n : String) (d : ℤ) : Bool :=
  decide ((n, d) ∈ st.already_registered)

/-- `mark_profile_already_registered` (lines 822-826). -/
def mark_profile_already_registered (st : TrackState) (n : String) (d : ℤ) : TrackState :=
  { st with already_registered := (n, d) :: st.already_registered }

/-- `is_profile_successful` (lines 840-842), reading the flattened set. -/
def is_profile_successful (st : TrackState) (n : String) (d s : ℤ) : Bool :=
  decide ((n, d, s) ∈ st.successful_pairs)

/-- `mark_profile_successful` (lines 833-838). -/
def mark_profile_successful (st : TrackState) (n : String) (d s : ℤ) : TrackState :=
  { st with successful_pairs := (n, d, s) :: st.successful_pairs }

/-- `can_profile_register` (lines 844-851). -/
def can_profile_register (st : TrackState) (n : String) (d s : ℤ) : Bool × String :=
  if is_profile_successful st n d s then (false, "Đã thành công")
  else if is_profile_already_registered_for_date st n d then
    (false, "Đã đăng ký ngày " ++ toString d)
  else if is_slot_full st d s then (false, "Cặp đã hết slot")
  else (true, "OK")

/-! Retry orchestrator (auto_v2.py lines 657-811). -/

/-- The default `(False, "NO_RESULT", "")` used when a pending profile's key is
absent from the round's result map (line 730). -/
def no_result : Outcome :=
  ⟨false, "NO_RESULT", ""⟩

/-- Accumulated effect of the result-processing loop of one retry round
(lines 724-784): the captcha-error queue, the non-fatal retry queue, the
updated tracking state, the per-profile final-result writes, and the entries
appended to the success and failure logs. -/
structure RoundDelta where
  captcha_error_profiles : List String
  next_pending : List String
  st : TrackState
  final_delta : List (String × Bool)
  success_log : List (String × String)
  failed_log : List (String × String × String)
deriving DecidableEq

/-- The result-processing loop (lines 728-784), one pending profile at a time,
in pending order. Success records both tracking marks and a final `true`;
CAPTCHA_ERROR queues for refresh; SLOT_FULL marks the pair exhausted with a
final `false`; ALREADY_REGISTERED marks the date with a final `false`; every
other tag is kept pending for the next round. Every non-success appends a
failure-log entry carrying the error type and the response truncated to 200
characters. -/
def process_round_results (d s : ℤ) (results : List (String × Outcome)) :
    List String → TrackState → RoundDelta
  | [], st => ⟨[], [], st, [], [], []⟩
  | n :: rest, st =>
    let o := (results.lookup n).getD no_result
    if o.success then
      let st1 := mark_profile_already_registered (mark_profile_successful st n d s) n d
      let r := process_round_results d s results rest st1
      { r with final_delta := (n, true) :: r.final_delta,
               success_log := (n, o.resp) :: r.success_log }
    else if o.tag = "CAPTCHA_ERROR" then
      let r := process_round_results d s results rest st
      { r with captcha_error_profiles := n :: r.captcha_error_profiles,
               failed_log := (n, o.tag, o.resp.take 200) :: r.failed_log }
    else if o.tag = "SLOT_FULL" then
      let r := process_round_results d s results rest (mark_slot_full st d s)
      { r with final_delta := (n, false) :: r.final_delta,
               failed_log := (n, o.tag, o.resp.take 200) :: r.failed_log }
    else if o.tag = "ALREADY_REGISTERED" then
      let r := process_round_results d s results rest (mark_profile_already_registered st n d)
      { r with final_delta := (n, false) :: r.final_delta,
               failed_log := (n, o.tag, o.resp.take 200) :: r.failed_log }
    else
      let r := process_round_results d s results rest st
      { r with next_pending := n :: r.next_pending,
               failed_log := (n, o.tag, o.resp.take 200) :: r.failed_log }

/-- Oracles feeding the orchestrator: `attempt r n` is the outcome
`register_single_attempt` produces for profile `n` in retry round `r`;
`clock` is the stream of wall-clock readings; `freshText k` is the token text
the k-th `get_fresh_captcha` call of this invocation solves to (the fetch
itself retries unboundedly and, as established for that function, always
returns a well-formed token). -/
structure OrchEnv where
  attempt : ℕ → String → Outcome
  clock : ℕ → ℤ
  freshText : ℕ → String

/-- Mutable state of the per-pair retry loop: tracking state, clock-read
index, captcha-acquisition count, the shared credential (text, timestamp, and
the ghost index of the clock reading that stamped it), the pending set, the
final result map, the event trace and the round counter. -/
structure LoopState where
  st : TrackState
  t : ℕ
  cap : ℕ
  credText : String
  credTs : ℤ
  credIdx : ℕ
  pending : List String
  final : List (String × Bool)
  trace : List Event
  round : ℕ
deriving DecidableEq

/-- One `get_fresh_captcha` call made by the orchestrator (lines 692-694,
712-714, 791-793): consumes one clock reading as the token's timestamp and
bumps the acquisition counter. -/
def acquire_captcha (env : OrchEnv) (S : LoopState) : LoopState :=
  { S with credText := env.freshText S.cap, credTs := env.clock S.t,
           credIdx := S.t, t := S.t + 1, cap := S.cap + 1 }

/-- Per-round record kept for the statements below: the credential the round
dispatched with (text, timestamp, ghost clock index, acquisition count), the
tracking state and pending set at dispatch, and the outcome the processing
loop observed for each pending profile. -/
structure RoundInfo where
  credText : String
  credTs : ℤ
  credIdx : ℕ
  capAt : ℕ
  stAt : TrackState
  pendingAt : List String
  results : List (String × Outcome)
deriving DecidableEq

/-- Top of one retry-loop iteration (lines 707-716): the 60-second TTL check,
refreshing the credential on expiry. The check consumes one clock reading; a
refresh consumes the next one as the new credential's timestamp. -/
def orch_round_start (env : OrchEnv) (S : LoopState) : LoopState :=
  if is_captcha_valid (env.clock S.t) S.credTs 60 then { S with t := S.t + 1 }
  else acquire_captcha env { S with t := S.t + 1 }

/-- Body of one retry-loop iteration after the TTL check (lines 718-801): the
fan-out batch, result processing, the forced refresh when any captcha error
was observed, and the pending-set update `next_pending ++
captcha_error_profiles`. -/
def orch_round_core (env : OrchEnv) (d s : ℤ) (w : ℕ) (S1 : LoopState) :
    RoundInfo × LoopState :=
  let b := register_batch_with_shared_captcha w (env.attempt S1.round) env.clock
    S1.pending S1.credTs S1.t
  let info : RoundInfo :=
    { credText := S1.credText, credTs := S1.credTs, credIdx := S1.credIdx,
      capAt := S1.cap, stAt := S1.st, pendingAt := S1.pending,
      results := S1.pending.map fun n => (n, (b.1.lookup n).getD no_result) }
  let delta := process_round_results d s b.1 S1.pending S1.st
  let S2 :=
    { S1 with t := b.2.2, trace := S1.trace ++ b.2.1,
              st := delta.st, final := S1.final ++ delta.final_delta }
  let S3 := if delta.captcha_error_profiles.isEmpty then S2 else acquire_captcha env S2
  (info,
   { S3 with pending := delta.next_pending ++ delta.captcha_error_profiles,
             round := S3.round + 1 })

/-- One iteration of the retry loop (lines 704-801). -/
def orch_round (env : OrchEnv) (d s : ℤ) (w : ℕ) (S : LoopState) :
    RoundInfo × LoopState :=
  orch_round_core env d s w (orch_round_start env S)

/-- The batch a round dispatches (shorthand for statements about
`orch_round_core`). -/
def round_batch (env : OrchEnv) (w : ℕ) (S1 : LoopState) :
    List (String × Outcome) × List Event × ℕ :=
  register_batch_with_shared_captcha w (env.attempt S1.round) env.clock
    S1.pending S1.credTs S1.t

/-- The processing delta a round produces (shorthand for statements about
`orch_round_core`). -/
def round_delta (env : OrchEnv) (d s : ℤ) (w : ℕ) (S1 : LoopState) : RoundDelta :=
  process_round_results d s (round_batch env w S1).1 S1.pending S1.st

/-- The `while pending_profiles` loop (lines 704-806) with explicit fuel:
stop when nothing is pending, and break right after a round once the pair is
marked exhausted. Returns the per-round records and the final state. -/
def orch_loop (env : OrchEnv) (d s : ℤ) (w : ℕ) :
    ℕ → LoopState → List RoundInfo × LoopState
  | 0, S => ([], S)
  | fuel + 1, S =>
    if S.pending.isEmpty then ([], S)
    else
      let r := orch_round env d s w S
      if is_slot_full r.2.st d s then ([r.1], r.2)
      else
        let rec2 := orch_loop env d s w fuel r.2
        (r.1 :: rec2.1, rec2.2)

/-- Result of `register_all_profiles_parallel`: the final result map, the
per-round records, the event trace and the tracking state left behind. -/
structure OrchResult where
  final : List (String × Bool)
  rounds : List RoundInfo
  trace : List Event
  st : TrackState
deriving DecidableEq

/-- `register_all_profiles_parallel` (lines 657-811): return an empty map at
once if the pair is already exhausted; filter the eligible profiles through
`can_profile_register` and return an empty map if none survive; otherwise
acquire the initial shared credential and run the retry loop. -/
def register_all_profiles_parallel (env : OrchEnv) (w fuel : ℕ) (d s : ℤ)
    (profiles : List String) (st0 : TrackState) : OrchResult :=
  if is_slot_full st0 d s then ⟨[], [], [], st0⟩
  else
    let eligible := profiles.filter fun n => (can_profile_register st0 n d s).1
    if eligible.isEmpty then ⟨[], [], [], st0⟩
    else
      let S0 := acquire_captcha env
        { st := st0, t := 0, cap := 0, credText := "", credTs := 0, credIdx := 0,
          pending := eligible, final := [], trace := [], round := 0 }
      let r := orch_loop env d s w fuel S0
      ⟨r.2.final, r.1, r.2.trace, r.2.st⟩

/-! Concrete fixtures used by the witness and counterexample theorems below. -/

/-- Attempt stream for the C9 witness: one 503 failure, then a clean attempt
whose OCR yields a 5-character token. -/
def c9_env : ℕ → AttemptEnv := fun i =>
  if i = 0 then ⟨some (503, false), none, none⟩
  else ⟨some (200, true), some 200, some "ABCDE"⟩

/-- Clock for the C7 witness: the second chunk-TTL reading is 100 seconds
after the credential timestamp, past the 55-second safety TTL. -/
def c7_clock : ℕ → ℤ := fun i => if i = 1 then 100 else 0

/-- Environment for the C3 witness: attempts always succeed, the clock ticks
one second per reading, fresh tokens are constant. -/
def c3_env : OrchEnv :=
  ⟨fun _ n => ⟨true, "SUCCESS", n⟩, fun i => (i : ℤ), fun _ => "ABCDE"⟩

/-- Environment for the C1 counterexample: the credential is acquired at time
0 and every later clock reading falls in the window where the 55-second safety
TTL has lapsed but the 60-second hard TTL has not, so every chunk is marked
CAPTCHA_EXPIRED while the top-of-round check keeps the same credential. The
attempt oracle is irrelevant (nothing is ever dispatched). -/
def c1_env : OrchEnv :=
  ⟨fun _ _ => ⟨false, "UNKNOWN_ERROR", ""⟩,
   fun t => if t = 0 then 0 else 55 + (t : ℤ), fun _ => "AAAAA"⟩

/-- Environment for the C1 witness: round 0 answers every submission with a
bad-captcha response, round 1 with success; the clock ticks one second per
reading; the k-th acquired token is the decimal print of k. -/
def c1w_env : OrchEnv :=
  ⟨fun r _ => if r = 0 then ⟨false, "CAPTCHA_ERROR", "bad"⟩ else ⟨true, "SUCCESS", "ok"⟩,
   fun i => (i : ℤ), fun k => toString k⟩

/-- The C1 witness run. -/
def c1w_res : OrchResult :=
  register_all_profiles_parallel c1w_env 1 3 1 1 ["p1"] (TrackState.mk [] [] [])

/-- Round 0 of the C1 witness run. -/
def c1w_r0 : RoundInfo :=
  ⟨"0", 0, 0, 1, TrackState.mk [] [] [], ["p1"],
   [("p1", Outcome.mk false "CAPTCHA_ERROR" "bad")]⟩

/-- Round 1 of the C1 witness run. -/
def c1w_r1 : RoundInfo :=
  ⟨"1", 3, 3, 2, TrackState.mk [] [] [], ["p1"],
   [("p1", Outcome.mk true "SUCCESS" "ok")]⟩

/-! Helper lemmas about association-list lookup. -/

theorem lookup_cons_self {β : Type} (n : String) (v : β) (l : List (String × β)) :
    ((n, v) :: l).lookup n = some v := by
  simp [List.lookup]

theorem lookup_cons_ne {β : Type} (n m : String) (v : β) (l : List (String × β))
    (h : n ≠ m) : ((m, v) :: l).lookup n = l.lookup n := by
  have hf : (n == m) = false := beq_eq_false_iff_ne.mpr h
  simp [List.lookup, hf]

theorem lookup_map_const {β : Type} (e : β) (c : List String) (n : String)
    (hn : n ∈ c) : (c.map fun m => (m, e)).lookup n = some e := by
  induction c with
  | nil => cases hn
  | cons a c ih =>
    cases hn with
    | head => simp [List.lookup]
    | tail _ hn =>
      by_cases hna : n = a
      · subst hna
        simp [List.lookup]
      · have hf : (n == a) = false := beq_eq_false_iff_ne.mpr hna
        simpa [List.lookup, hf] using ih hn

theorem lookup_append_left {β : Type} (l1 l2 : List (String × β)) (n : String)
    (v : β) (h : l1.lookup n = some v) : (l1 ++ l2).lookup n = some v := by
  induction l1 with
  | nil => simp [List.lookup] at h
  | cons p l1 ih =>
    obtain ⟨a, b⟩ := p
    by_cases hna : n = a
    · subst hna
      simpa [List.lookup] using h
    · have hf : (n == a) = false := beq_eq_false_iff_ne.mpr hna
      simp only [List.cons_append, List.lookup, hf] at h ⊢
      exact ih h

theorem lookup_append_skip {β : Type} (l1 l2 : List (String × β)) (n : String)
    (h : ∀ p ∈ l1, p.1 ≠ n) : (l1 ++ l2).lookup n = l2.lookup n := by
  induction l1 with
  | nil => simp
  | cons p l1 ih =>
    obtain ⟨a, b⟩ := p
    have hne : n ≠ a := fun he => (h (a, b) (by simp)) he.symm
    have hf : (n == a) = false := beq_eq_false_iff_ne.mpr hne
    simp only [List.cons_append, List.lookup, hf]
    exact ih fun q hq => h q (by simp [hq])

theorem lookup_eq_none_of_notmem {β : Type} (l : List (String × β)) (n : String)
    (h : ∀ p ∈ l, p.1 ≠ n) : l.lookup n = none := by
  have := lookup_append_skip l [] n h
  simpa using this

/-! Claim C2: session-pool cap invariant. -/

/-- Claim C2, counterexample: the claim says the in-flight plus idle total
never exceeds the hard cap from session-pool initialization onward, but `run`
sizes the initial pool as `max(max_workers, len(profiles) + 5)`; with 15
workers and 30 profiles the freshly initialized pool already holds 35 idle
sessions against a hard cap of 31. -/
theorem c2_counterexample :
    hard_cap 15 <
      (init_session_pool (run_pool_size 15 30)).idle +
        (init_session_pool (run_pool_size 15 30)).inflight := by
  decide

/-- Claim C2 (amended): provided the initial pool size is at most the hard cap
`max_workers + 16`, the stop signal is not set, and releases follow acquires
(inflight is positive at release), the bound `idle + inflight ≤ hard cap`
holds at initialization and is preserved by every acquire and every release. -/
theorem c2_amended (w pool_size : ℕ) (s s2 : PoolState) :
    (pool_size ≤ hard_cap w →
      (init_session_pool pool_size).idle + (init_session_pool pool_size).inflight
        ≤ hard_cap w)
    ∧ (s.idle + s.inflight ≤ hard_cap w → get_session_from_pool w false s = some s2 →
        s2.idle + s2.inflight ≤ hard_cap w)
    ∧ (s.idle + s.inflight ≤ hard_cap w → 1 ≤ s.inflight →
        (return_session_to_pool w s).idle + (return_session_to_pool w s).inflight
          ≤ hard_cap w) := by
  refine ⟨fun h => by simpa [init_session_pool] using h, ?_, ?_⟩
  · intro hle hacq
    unfold get_session_from_pool at hacq
    split_ifs at hacq with h1 h2 h3
    · injection hacq with h4
      subst h4
      show s.idle - 1 + (s.inflight + 1) ≤ hard_cap w
      omega
    · injection hacq with h4
      subst h4
      show s.idle + (s.inflight + 1) ≤ hard_cap w
      omega
    · exact absurd h3 (by decide)
  · intro hle hpos
    show (if s.idle < max_pool_size w then s.idle + 1 else s.idle) + (s.inflight - 1)
      ≤ hard_cap w
    unfold max_pool_size hard_cap at *
    split_ifs <;> omega

/-- Claim C2 witness: the amended invariant evaluated at concrete states. -/
theorem c2_amended_witness :
    (init_session_pool 20).idle + (init_session_pool 20).inflight ≤ hard_cap 15
    ∧ (PoolState.mk 14 6).idle + (PoolState.mk 14 6).inflight ≤ hard_cap 15
    ∧ (return_session_to_pool 15 ⟨15, 5⟩).idle +
        (return_session_to_pool 15 ⟨15, 5⟩).inflight ≤ hard_cap 15 := by
  have h := c2_amended 15 20 ⟨15, 5⟩ ⟨14, 6⟩
  exact ⟨h.1 (by decide), h.2.1 (by decide) (by decide), h.2.2 (by decide) (by decide)⟩

/-! Claim C5: status-code short-circuit in register_single_attempt. -/

/-- Claim C5: for a non-200 status the outcome tag is decided by the status
alone (503 gives SERVER_503, 500 gives SERVER_500, any other non-200 gives
HTTP_ERROR, independent of the body); body classification decides the tag only
when the status is 200. -/
theorem c5_status_short_circuit (status : ℕ) (body : String) :
    (status ≠ 200 →
      (attempt_outcome (.ok status body)).tag =
        (if status = 503 then "SERVER_503"
         else if status = 500 then "SERVER_500" else "HTTP_ERROR")
      ∧ ∀ body2, (attempt_outcome (.ok status body2)).tag =
          (attempt_outcome (.ok status body)).tag)
    ∧ (status = 200 →
      (attempt_outcome (.ok status body)).tag = (classify_error body status).1) := by
  constructor
  · intro hne
    constructor
    · simp only [attempt_outcome]
      split_ifs <;> simp_all
    · intro body2
      simp only [attempt_outcome]
      split_ifs <;> simp_all
  · intro h200
    subst h200
    simp only [attempt_outcome]
    by_cases hs : (classify_error body 200).1 = "SUCCESS" <;> simp [hs]

/-- Claim C5 witness: a 404 is tagged HTTP_ERROR regardless of body, and a 200
falls through to the body classifier. -/
theorem c5_witness :
    (attempt_outcome (.ok 404 "whatever")).tag = "HTTP_ERROR"
    ∧ (attempt_outcome (.ok 200 "abc")).tag = (classify_error "abc" 200).1 := by
  refine ⟨?_, (c5_status_short_circuit 200 "abc").2 rfl⟩
  have h := ((c5_status_short_circuit 404 "whatever").1 (by decide)).1
  simpa using h

/-! Claim C8: guaranteed session release in register_single_attempt. -/

/-- Claim C8: whenever `register_single_attempt` runs (its pool acquire
completed), the trace is exactly one acquire followed by one release — on the
normal path, the timeout path and the exception path alike — and the in-flight
count returns to its pre-call value. -/
theorem c8_session_release (w : ℕ) (stop : Bool) (net : NetResult) (s : PoolState)
    (out : Outcome) (s2 : PoolState) (tr : List PEvent)
    (h : register_single_attempt_pool w stop net s = some (out, s2, tr)) :
    tr = [PEvent.acq, PEvent.rel] ∧ tr.count PEvent.acq = 1 ∧ tr.count PEvent.rel = 1
    ∧ s2.inflight = s.inflight := by
  unfold register_single_attempt_pool at h
  cases hacq : get_session_from_pool w stop s with
  | none =>
    rw [hacq] at h
    exact Option.noConfusion h
  | some s1 =>
    rw [hacq] at h
    have hinf : s1.inflight = s.inflight + 1 := by
      unfold get_session_from_pool at hacq
      split_ifs at hacq
      · injection hacq with h4
        subst h4
        rfl
      · injection hacq with h4
        subst h4
        rfl
      · injection hacq with h4
        subst h4
        rfl
    have hrel : (return_session_to_pool w s1).inflight = s.inflight := by
      show s1.inflight - 1 = s.inflight
      omega
    cases net with
    | timeout =>
      simp only [Option.some.injEq, Prod.mk.injEq] at h
      obtain ⟨h5, h6, h7⟩ := h
      subst h6
      subst h7
      exact ⟨rfl, by decide, by decide, hrel⟩
    | exc m =>
      simp only [Option.some.injEq, Prod.mk.injEq] at h
      obtain ⟨h5, h6, h7⟩ := h
      subst h6
      subst h7
      exact ⟨rfl, by decide, by decide, hrel⟩
    | ok status body =>
      simp only [Option.some.injEq, Prod.mk.injEq] at h
      obtain ⟨h5, h6, h7⟩ := h
      subst h6
      subst h7
      exact ⟨rfl, by decide, by decide, hrel⟩

/-- Claim C8 witness: a concrete timeout attempt acquires and releases exactly
once and restores the in-flight count. -/
theorem c8_witness :
    ∃ out s2 tr, register_single_attempt_pool 15 false NetResult.timeout ⟨3, 2⟩
        = some (out, s2, tr)
      ∧ tr = [PEvent.acq, PEvent.rel] ∧ s2.inflight = 2 := by
  refine ⟨⟨false, "TIMEOUT", "Request timeout"⟩, ⟨3, 2⟩, [PEvent.acq, PEvent.rel],
    by decide, rfl, ?_⟩
  have h := c8_session_release 15 false NetResult.timeout ⟨3, 2⟩
    ⟨false, "TIMEOUT", "Request timeout"⟩ ⟨3, 2⟩ [PEvent.acq, PEvent.rel] (by decide)
  exact h.2.2.2

/-! Claim C4: classifier precedence. -/

/-- Claim C4: `classify_error` is exactly the spec's fixed precedence order,
evaluated case-insensitively on the lowercased body, first match wins —
empty body, success, bad captcha, slot exhaustion, already registered, server
error, temporarily closed, connectivity, else UNKNOWN_ERROR with the first 100
characters of the body as snippet. -/
theorem c4_classifier_precedence (body : String) (sc : ℕ) :
    classify_error body sc = classifySpec body := by
  unfold classify_error classifySpec spec_rule_table
  by_cases h0 : body.isEmpty
  · simp [h0]
  · simp only [h0, Bool.false_eq_true, if_false, List.find?]
    by_cases h1 : containsAny body.toLower success_indicators
    · simp [h1]
    · by_cases h2 : containsAny body.toLower captcha_error_indicators
      · simp [h1, h2]
      · by_cases h3 : containsAny body.toLower slot_full_indicators
        · simp [h1, h2, h3]
        · by_cases h4 : containsAny body.toLower already_registered_indicators
          · simp [h1, h2, h3, h4]
          · by_cases h5 : containsAny body.toLower server_error_indicators
            · simp [h1, h2, h3, h4, h5]
            · by_cases h6 : containsAny body.toLower server_closed_indicators
              · simp [h1, h2, h3, h4, h5, h6]
              · by_cases h7 : containsAny body.toLower connection_error_indicators
                · simp [h1, h2, h3, h4, h5, h6, h7]
                · simp [h1, h2, h3, h4, h5, h6, h7]

/-! Claim C9: credential acquisition. -/

theorem run_captcha_attempt_format (a : AttemptEnv) (tok : String)
    (h : run_captcha_attempt a = some tok) : tok.isEmpty = false ∧ tok.length = 5 := by
  unfold run_captcha_attempt at h
  split at h
  · exact Option.noConfusion h
  · split_ifs at h
    split at h
    · exact Option.noConfusion h
    · split_ifs at h
      split at h
      · exact Option.noConfusion h
      · split_ifs at h with hbad
        injection h with h4
        subst h4
        simp only [Bool.or_eq_true, decide_eq_true_eq] at hbad
        push_neg at hbad
        exact ⟨by simpa using hbad.1, hbad.2⟩

theorem get_fresh_captcha_sound (env : ℕ → AttemptEnv) (clock : ℕ → ℤ) :
    ∀ fuel i tok ts, get_fresh_captcha env clock fuel i = some (tok, ts) →
      ∃ k, i ≤ k ∧ run_captcha_attempt (env k) = some tok ∧ ts = clock k ∧
        ∀ j, i ≤ j → j < k → run_captcha_attempt (env j) = none := by
  intro fuel
  induction fuel with
  | zero =>
    intro i tok ts h
    exact Option.noConfusion h
  | succ fuel ih =>
    intro i tok ts h
    rw [get_fresh_captcha] at h
    cases hr : run_captcha_attempt (env i) with
    | some tok0 =>
      rw [hr] at h
      simp only [Option.some.injEq, Prod.mk.injEq] at h
      obtain ⟨h1, h2⟩ := h
      subst h1
      subst h2
      exact ⟨i, le_refl i, hr, rfl, fun j hij hji => absurd hij (by omega)⟩
    | none =>
      rw [hr] at h
      obtain ⟨k, hik, hk, hts, hfail⟩ := ih (i + 1) tok ts h
      refine ⟨k, by omega, hk, hts, ?_⟩
      intro j hij hjk
      rcases Nat.eq_or_lt_of_le hij with he | hlt
      · rw [← he]
        exact hr
      · exact hfail j (by omega) hjk

theorem get_fresh_captcha_complete_aux (env : ℕ → AttemptEnv) (clock : ℕ → ℤ)
    (k : ℕ) (tok : String) (hsucc : run_captcha_attempt (env k) = some tok) :
    ∀ fuel i, i ≤ k → k - i < fuel →
      (∀ j, i ≤ j → j < k → run_captcha_attempt (env j) = none) →
      get_fresh_captcha env clock fuel i = some (tok, clock k) := by
  intro fuel
  induction fuel with
  | zero =>
    intro i h1 h2 h3
    omega
  | succ fuel ih =>
    intro i hik hfuel hfail
    rcases Nat.eq_or_lt_of_le hik with he | hlt
    · subst he
      rw [get_fresh_captcha, hsucc]
    · have hi : run_captcha_attempt (env i) = none := hfail i (le_refl i) hlt
      rw [get_fresh_captcha, hi]
      exact ih (i + 1) (by omega) (by omega) fun j h1 h2 => hfail j (by omega) h2

/-- Claim C9: `get_fresh_captcha` returns only a token that passed the format
check (non-empty, exactly 5 characters), stamped with the wall-clock reading
taken at the moment of success, and only after every earlier attempt failed;
conversely, any finite run of failures of any kind (non-200 or 503 status,
missing image reference, download failure, exception, bad OCR format) followed
by one success yields that success — the retry is immediate and uncapped. -/
theorem c9_captcha_fetch :
    (∀ (env : ℕ → AttemptEnv) (clock : ℕ → ℤ) (fuel i : ℕ) (tok : String) (ts : ℤ),
      get_fresh_captcha env clock fuel i = some (tok, ts) →
        (tok.isEmpty = false ∧ tok.length = 5)
        ∧ ∃ k, i ≤ k ∧ run_captcha_attempt (env k) = some tok ∧ ts = clock k
            ∧ ∀ j, i ≤ j → j < k → run_captcha_attempt (env j) = none)
    ∧ (∀ (env : ℕ → AttemptEnv) (clock : ℕ → ℤ) (k : ℕ) (tok : String),
      (∀ j, j < k → run_captcha_attempt (env j) = none) →
      run_captcha_attempt (env k) = some tok →
      ∀ fuel, k < fuel → get_fresh_captcha env clock fuel 0 = some (tok, clock k)) := by
  constructor
  · intro env clock fuel i tok ts h
    obtain ⟨k, hik, hk, hts, hfail⟩ := get_fresh_captcha_sound env clock fuel i tok ts h
    exact ⟨run_captcha_attempt_format (env k) tok hk, k, hik, hk, hts, hfail⟩
  · intro env clock k tok hfail hsucc fuel hfuel
    exact get_fresh_captcha_complete_aux env clock k tok hsucc fuel 0 (by omega)
      (by omega) fun j h1 h2 => hfail j h2

/-- Claim C9 witness: after the single 503 failure the fetch returns the
5-character token stamped with the clock reading of attempt 1. -/
theorem c9_witness :
    get_fresh_captcha c9_env (fun i => (i : ℤ)) 5 0 = some ("ABCDE", ((1 : ℕ) : ℤ)) := by
  exact c9_captcha_fetch.2 c9_env (fun i => (i : ℤ)) 1 "ABCDE"
    (by
      intro j hj
      have hj0 : j = 0 := by omega
      subst hj0
      decide)
    (by decide) 5 (by omega)

/-! Chunking lemmas. -/

theorem chunksOfGo_fuel {α : Type} (w : ℕ) (hw : 0 < w) :
    ∀ fuel1 fuel2 (l : List α), l.length ≤ fuel1 → l.length ≤ fuel2 →
      chunksOfGo w fuel1 l = chunksOfGo w fuel2 l := by
  intro fuel1
  induction fuel1 with
  | zero =>
    intro fuel2 l h1 h2
    have hl : l = [] := List.length_eq_zero.mp (by omega)
    subst hl
    cases fuel2 <;> simp [chunksOfGo]
  | succ f ih =>
    intro fuel2 l h1 h2
    rcases eq_or_ne l [] with he | hne
    · subst he
      cases fuel2 <;> simp [chunksOfGo]
    · have hpos : 0 < l.length := List.length_pos.mpr hne
      cases fuel2 with
      | zero => omega
      | succ g =>
        have hie : l.isEmpty = false := by simp [hne]
        simp only [chunksOfGo, hie, Bool.false_eq_true, if_false]
        congr 1
        exact ih g (l.drop w) (by simp only [List.length_drop]; omega)
          (by simp only [List.length_drop]; omega)

theorem chunksOf_nil {α : Type} (w : ℕ) : chunksOf w ([] : List α) = [] := by
  unfold chunksOf
  split_ifs <;> rfl

theorem chunksOf_cons {α : Type} (w : ℕ) (hw : 0 < w) (l : List α) (hl : l ≠ []) :
    chunksOf w l = l.take w :: chunksOf w (l.drop w) := by
  have hw0 : ¬(w = 0) := by omega
  have hie : l.isEmpty = false := by simp [hl]
  have hpos : 0 < l.length := List.length_pos.mpr hl
  unfold chunksOf
  simp only [hw0, if_false]
  cases hlen : l.length with
  | zero => omega
  | succ n =>
    simp only [chunksOfGo, hie, Bool.false_eq_true, if_false]
    congr 1
    exact chunksOfGo_fuel w hw n (l.drop w).length (l.drop w)
      (by simp only [List.length_drop]; omega) (le_refl _)

theorem chunksOf_join {α : Type} (w : ℕ) (hw : 0 < w) (l : List α) :
    (chunksOf w l).flatten = l := by
  have main : ∀ n (l : List α), l.length ≤ n → (chunksOf w l).flatten = l := by
    intro n
    induction n with
    | zero =>
      intro l hlen
      have hl : l = [] := List.length_eq_zero.mp (by omega)
      subst hl
      simp [chunksOf_nil]
    | succ n ih =>
      intro l hlen
      rcases eq_or_ne l [] with he | hne
      · subst he
        simp [chunksOf_nil]
      · have hpos : 0 < l.length := List.length_pos.mpr hne
        rw [chunksOf_cons w hw l hne, List.flatten_cons,
          ih (l.drop w) (by simp only [List.length_drop]; omega)]
        exact List.take_append_drop w l
  exact main l.length l (le_refl _)

theorem chunksOf_length_le {α : Type} (w : ℕ) (hw : 0 < w) (l : List α) :
    ∀ c ∈ chunksOf w l, c.length ≤ w := by
  have main : ∀ n (l : List α), l.length ≤ n → ∀ c ∈ chunksOf w l, c.length ≤ w := by
    intro n
    induction n with
    | zero =>
      intro l hlen c hc
      have hl : l = [] := List.length_eq_zero.mp (by omega)
      subst hl
      rw [chunksOf_nil] at hc
      cases hc
    | succ n ih =>
      intro l hlen c hc
      rcases eq_or_ne l [] with he | hne
      · subst he
        rw [chunksOf_nil] at hc
        cases hc
      · have hpos : 0 < l.length := List.length_pos.mpr hne
        rw [chunksOf_cons w hw l hne] at hc
        rcases List.mem_cons.mp hc with he2 | hc2
        · subst he2
          simp only [List.length_take]
          exact Nat.min_le_left w _
        · exact ih (l.drop w) (by simp only [List.length_drop]; omega) c hc2
  exact main l.length l (le_refl _)

theorem chunksOf_dropLast_length {α : Type} (w : ℕ) (hw : 0 < w) (l : List α) :
    ∀ c ∈ (chunksOf w l).dropLast, c.length = w := by
  have main : ∀ n (l : List α), l.length ≤ n →
      ∀ c ∈ (chunksOf w l).dropLast, c.length = w := by
    intro n
    induction n with
    | zero =>
      intro l hlen c hc
      have hl : l = [] := List.length_eq_zero.mp (by omega)
      subst hl
      rw [chunksOf_nil] at hc
      cases hc
    | succ n ih =>
      intro l hlen c hc
      rcases eq_or_ne l [] with he | hne
      · subst he
        rw [chunksOf_nil] at hc
        cases hc
      · have hpos : 0 < l.length := List.length_pos.mpr hne
        rw [chunksOf_cons w hw l hne] at hc
        rcases eq_or_ne (l.drop w) [] with hd | hd
        · rw [hd, chunksOf_nil] at hc
          simp at hc
        · have hlt : w < l.length := by
            by_contra hcon
            exact hd (List.drop_eq_nil_of_le (by omega))
          rw [chunksOf_cons w hw (l.drop w) hd] at hc
          simp only [List.dropLast_cons₂, List.mem_cons] at hc
          rcases hc with he2 | hc2
          · subst he2
            simp only [List.length_take]
            omega
          · rw [← chunksOf_cons w hw (l.drop w) hd] at hc2
            exact ih (l.drop w) (by simp only [List.length_drop]; omega) c hc2
  exact main l.length l (le_refl _)

/-! Lemmas about the chunk execution loop. -/

theorem run_chunks_attempt_mem (att : String → Outcome) (clock : ℕ → ℤ) (ts : ℤ) :
    ∀ (cs : List (List String)) (t : ℕ) (n : String),
      Event.attemptEv n ∈ (run_chunks att clock ts cs t).2.1 → n ∈ cs.flatten := by
  intro cs
  induction cs with
  | nil =>
    intro t n h
    cases h
  | cons c rest ih =>
    intro t n h
    rw [List.flatten_cons]
    simp only [run_chunks] at h
    by_cases hv : is_captcha_valid (clock t) ts 55 = true
    · rw [if_pos hv] at h
      dsimp only at h
      rcases List.mem_append.mp h with h2 | h2
      · rcases List.mem_append.mp h2 with h3 | h3
        · rcases List.mem_map.mp h3 with ⟨m, hm, he⟩
          injection he with he2
          subst he2
          exact List.mem_append.mpr (Or.inl hm)
        · exact absurd h3 (by split_ifs <;> simp)
      · exact List.mem_append.mpr (Or.inr (ih (t + 1) n h2))
    · rw [if_neg hv] at h
      dsimp only at h
      exact List.mem_append.mpr (Or.inr (ih (t + 1) n h))

theorem run_chunks_all_valid (att : String → Outcome) (clock : ℕ → ℤ) (ts : ℤ)
    (hval : ∀ k, is_captcha_valid (clock k) ts 55 = true) :
    ∀ (cs : List (List String)) (t : ℕ),
      (run_chunks att clock ts cs t).1 = cs.flatten.map (fun n => (n, att n))
      ∧ (run_chunks att clock ts cs t).2.1 = spec_chunk_trace cs := by
  intro cs
  induction cs with
  | nil =>
    intro t
    exact ⟨rfl, rfl⟩
  | cons c rest ih =>
    intro t
    simp only [run_chunks]
    rw [if_pos (hval t)]
    dsimp only
    obtain ⟨ih1, ih2⟩ := ih (t + 1)
    constructor
    · rw [List.flatten_cons, List.map_append, ih1]
    · cases rest with
      | nil =>
        rw [ih2]
        simp [spec_chunk_trace]
      | cons c2 rest2 =>
        rw [ih2]
        simp [spec_chunk_trace]

theorem run_chunks_expired (att : String → Outcome) (clock : ℕ → ℤ) (ts : ℤ) :
    ∀ (cs : List (List String)) (t k : ℕ) (c : List String) (n : String),
      cs.get? k = some c → n ∈ c → cs.flatten.Nodup →
      is_captcha_valid (clock (t + k)) ts 55 = false →
      (run_chunks att clock ts cs t).1.lookup n = some expired_outcome
      ∧ Event.attemptEv n ∉ (run_chunks att clock ts cs t).2.1 := by
  intro cs
  induction cs with
  | nil =>
    intro t k c n hk
    simp at hk
  | cons c0 rest ih =>
    intro t k c n hk hn hnd hbad
    rw [List.flatten_cons] at hnd
    have hdisj := (List.nodup_append.mp hnd).2.2
    cases k with
    | zero =>
      have hc : c = c0 := by
        simpa using hk.symm
      subst hc
      have hval : ¬(is_captcha_valid (clock t) ts 55 = true) := by
        intro hcon
        rw [show t = t + 0 from rfl] at hcon
        rw [hbad] at hcon
        cases hcon
      simp only [run_chunks]
      rw [if_neg hval]
      dsimp only
      constructor
      · exact lookup_append_left _ _ n _ (lookup_map_const expired_outcome c n hn)
      · intro hmem
        exact hdisj hn (run_chunks_attempt_mem att clock ts rest (t + 1) n hmem)
    | succ k =>
      have hk2 : rest.get? k = some c := by simpa using hk
      have hn0 : n ∉ c0 := by
        intro hc0
        have hcr : c ∈ rest := List.get?_mem hk2
        exact hdisj hc0 (List.mem_flatten.mpr ⟨c, hcr, hn⟩)
      have hnd2 : rest.flatten.Nodup := (List.nodup_append.mp hnd).2.1
      have hbad2 : is_captcha_valid (clock (t + 1 + k)) ts 55 = false := by
        have harith : t + 1 + k = t + (k + 1) := by omega
        rw [harith]
        exact hbad
      have ihr := ih (t + 1) k c n hk2 hn hnd2 hbad2
      have hskip : ∀ (f : String → Outcome) (p : String × Outcome),
          p ∈ c0.map (fun m => (m, f m)) → p.1 ≠ n := by
        intro f p hp he
        rcases List.mem_map.mp hp with ⟨m, hm, he2⟩
        rw [← he2] at he
        exact hn0 (he ▸ hm)
      simp only [run_chunks]
      by_cases hv : is_captcha_valid (clock t) ts 55 = true
      · rw [if_pos hv]
        dsimp only
        constructor
        · rw [lookup_append_skip _ _ n (hskip att)]
          exact ihr.1
        · intro hmem
          rcases List.mem_append.mp hmem with h2 | h2
          · rcases List.mem_append.mp h2 with h3 | h3
            · rcases List.mem_map.mp h3 with ⟨m, hm, he⟩
              injection he with he2
              exact hn0 (he2 ▸ hm)
            · exact absurd h3 (by split_ifs <;> simp)
          · exact ihr.2 h2
      · rw [if_neg hv]
        dsimp only
        constructor
        · rw [lookup_append_skip _ _ n (hskip fun _ => expired_outcome)]
          exact ihr.1
        · exact ihr.2

theorem batch_chunks_flatten (w : ℕ) (hw : 0 < w) (names : List String) :
    (batch_chunks w names).flatten = names := by
  unfold batch_chunks
  split_ifs with hlen
  · exact chunksOf_join w hw names
  · simp

/-- Claim C6: the dispatcher splits the submissions into consecutive chunks of
worker-pool size with a possibly smaller last chunk when they outnumber the
workers (20 submissions with 8 workers give sizes 8, 8, 4), otherwise a single
chunk; the chunks run strictly in sequence, each awaited in full, with a fixed
30 ms delay after a chunk exactly when more chunks remain. -/
theorem c6_chunked_dispatch (w : ℕ) (hw : 0 < w) (att : String → Outcome)
    (clock : ℕ → ℤ) (ts : ℤ) (t : ℕ) (names : List String) :
    (batch_chunks w names).flatten = names
    ∧ (∀ c ∈ (batch_chunks w names).dropLast, c.length = w)
    ∧ (∀ c ∈ batch_chunks w names, c.length ≤ w)
    ∧ (chunksOf 8 (List.range 20)).map List.length = [8, 8, 4]
    ∧ ((∀ k, is_captcha_valid (clock k) ts 55 = true) →
        (register_batch_with_shared_captcha w att clock names ts t).2.1
            = spec_chunk_trace (batch_chunks w names)
        ∧ (register_batch_with_shared_captcha w att clock names ts t).1
            = names.map fun n => (n, att n)) := by
  refine ⟨batch_chunks_flatten w hw names, ?_, ?_, by decide, ?_⟩
  · unfold batch_chunks
    split_ifs with hlen
    · exact chunksOf_dropLast_length w hw names
    · intro c hc
      simp at hc
  · unfold batch_chunks
    split_ifs with hlen
    · exact chunksOf_length_le w hw names
    · intro c hc
      have hc2 : c = names := by simpa using hc
      subst hc2
      omega
  · intro hval
    obtain ⟨h1, h2⟩ := run_chunks_all_valid att clock ts hval (batch_chunks w names) t
    refine ⟨h2, ?_⟩
    rw [show (register_batch_with_shared_captcha w att clock names ts t).1
        = (run_chunks att clock ts (batch_chunks w names) t).1 from rfl, h1,
      batch_chunks_flatten w hw names]

/-- Claim C6 witness: three submissions over two workers chunk as 2 + 1 and
produce the spec's chunk-by-chunk trace. -/
theorem c6_witness :
    (batch_chunks 2 ["a", "b", "c"]).flatten = ["a", "b", "c"]
    ∧ (register_batch_with_shared_captcha 2 (fun n => ⟨true, "SUCCESS", n⟩)
        (fun _ => (0 : ℤ)) ["a", "b", "c"] 0 0).2.1
        = spec_chunk_trace (batch_chunks 2 ["a", "b", "c"]) := by
  have h := c6_chunked_dispatch 2 (by decide) (fun n => ⟨true, "SUCCESS", n⟩)
    (fun _ => (0 : ℤ)) 0 0 ["a", "b", "c"]
  exact ⟨h.1, (h.2.2.2.2 fun k => by decide).1⟩

/-- Claim C7: whenever the 55-second safety-TTL check fails at the moment a
chunk would start, every submission of that chunk is marked CAPTCHA_EXPIRED
and no registration attempt is executed for it. -/
theorem c7_expired_chunk_skipped (w : ℕ) (att : String → Outcome) (clock : ℕ → ℤ)
    (ts : ℤ) (t : ℕ) (names : List String) (hw : 0 < w) (hnd : names.Nodup)
    (k : ℕ) (c : List String) (hk : (batch_chunks w names).get? k = some c)
    (n : String) (hn : n ∈ c)
    (hexp : is_captcha_valid (clock (t + k)) ts 55 = false) :
    (register_batch_with_shared_captcha w att clock names ts t).1.lookup n
        = some expired_outcome
    ∧ Event.attemptEv n ∉ (register_batch_with_shared_captcha w att clock names ts t).2.1 := by
  have hnd2 : (batch_chunks w names).flatten.Nodup := by
    rw [batch_chunks_flatten w hw names]
    exact hnd
  exact run_chunks_expired att clock ts (batch_chunks w names) t k c n hk hn hnd2 hexp

/-- Claim C7 witness: with one worker, two submissions and a clock that jumps
past the safety TTL before the second chunk, submission "b" is marked expired
and never attempted, while "a" ran in the first chunk. -/
theorem c7_witness :
    (register_batch_with_shared_captcha 1 (fun n => ⟨true, "SUCCESS", n⟩)
        c7_clock ["a", "b"] 0 0).1.lookup "b" = some expired_outcome
    ∧ Event.attemptEv "b" ∉ (register_batch_with_shared_captcha 1
        (fun n => ⟨true, "SUCCESS", n⟩) c7_clock ["a", "b"] 0 0).2.1 := by
  exact c7_expired_chunk_skipped 1 (fun n => ⟨true, "SUCCESS", n⟩) c7_clock 0 0
    ["a", "b"] (by decide) (by decide) 1 ["b"] (by decide) "b" (by decide) (by decide)

/-! Lemmas about the result-processing loop. -/

theorem process_final_names (d s : ℤ) (results : List (String × Outcome)) :
    ∀ (pending : List String) (st : TrackState) (p : String × Bool),
      p ∈ (process_round_results d s results pending st).final_delta → p.1 ∈ pending := by
  intro pending
  induction pending with
  | nil =>
    intro st p hp
    cases hp
  | cons m rest ih =>
    intro st p hp
    simp only [process_round_results] at hp
    split_ifs at hp <;> dsimp only at hp
    · rcases List.mem_cons.mp hp with he | hp2
      · subst he
        exact List.mem_cons_self m rest
      · exact List.mem_cons_of_mem m (ih _ p hp2)
    · exact List.mem_cons_of_mem m (ih _ p hp)
    · rcases List.mem_cons.mp hp with he | hp2
      · subst he
        exact List.mem_cons_self m rest
      · exact List.mem_cons_of_mem m (ih _ p hp2)
    · rcases List.mem_cons.mp hp with he | hp2
      · subst he
        exact List.mem_cons_self m rest
      · exact List.mem_cons_of_mem m (ih _ p hp2)
    · exact List.mem_cons_of_mem m (ih _ p hp)

/-- Claim C10: a pending profile whose key is absent from the round's result
map is assigned the non-terminal default outcome NO_RESULT, logged as a
failure, kept in the retry queue for the next round, and never given a final
result in that round. -/
theorem c10_no_result (d s : ℤ) (results : List (String × Outcome))
    (st : TrackState) (pending : List String) (n : String)
    (hmem : n ∈ pending) (habs : results.lookup n = none) (hnd : pending.Nodup) :
    ((results.lookup n).getD no_result = Outcome.mk false "NO_RESULT" "")
    ∧ n ∈ (process_round_results d s results pending st).next_pending
    ∧ (n, "NO_RESULT", "") ∈ (process_round_results d s results pending st).failed_log
    ∧ (process_round_results d s results pending st).final_delta.lookup n = none := by
  refine ⟨by rw [habs]; rfl, ?_⟩
  induction pending generalizing st with
  | nil => cases hmem
  | cons m rest ih =>
    by_cases hm : m = n
    · subst hm
      have hnr : m ∉ rest := (List.nodup_cons.mp hnd).1
      simp only [process_round_results, habs]
      have htake : (no_result.resp).take 200 = "" := by decide
      have hsucc : no_result.success = false := rfl
      simp only [Option.getD_none, hsucc, Bool.false_eq_true, if_false]
      rw [if_neg (by decide : ¬(no_result.tag = "CAPTCHA_ERROR")),
        if_neg (by decide : ¬(no_result.tag = "SLOT_FULL")),
        if_neg (by decide : ¬(no_result.tag = "ALREADY_REGISTERED"))]
      dsimp only
      refine ⟨List.mem_cons_self _ _, ?_, ?_⟩
      · rw [show no_result.tag = "NO_RESULT" from rfl, htake]
        exact List.mem_cons_self _ _
      · exact lookup_eq_none_of_notmem _ m fun p hp he =>
          hnr (he ▸ process_final_names d s results rest st p hp)
    · have hnr : n ∈ rest := by
        rcases List.mem_cons.mp hmem with he | h2
        · exact absurd he.symm hm
        · exact h2
      have hnd2 : rest.Nodup := (List.nodup_cons.mp hnd).2
      have hne : n ≠ m := fun he => hm he.symm
      simp only [process_round_results]
      split_ifs <;> dsimp only
      · obtain ⟨ih1, ih2, ih3⟩ := ih _ hnr hnd2
        exact ⟨ih1, ih2, by rw [lookup_cons_ne n m _ _ hne]; exact ih3⟩
      · obtain ⟨ih1, ih2, ih3⟩ := ih _ hnr hnd2
        exact ⟨ih1, List.mem_cons_of_mem _ ih2, ih3⟩
      · obtain ⟨ih1, ih2, ih3⟩ := ih _ hnr hnd2
        exact ⟨ih1, List.mem_cons_of_mem _ ih2, by rw [lookup_cons_ne n m _ _ hne]; exact ih3⟩
      · obtain ⟨ih1, ih2, ih3⟩ := ih _ hnr hnd2
        exact ⟨ih1, List.mem_cons_of_mem _ ih2, by rw [lookup_cons_ne n m _ _ hne]; exact ih3⟩
      · obtain ⟨ih1, ih2, ih3⟩ := ih _ hnr hnd2
        exact ⟨List.mem_cons_of_mem _ ih1, List.mem_cons_of_mem _ ih2, ih3⟩

/-- Claim C10 witness: profile "b" is pending but absent from the result map;
it is defaulted to NO_RESULT, logged as failed, kept pending, and gets no
final mark. -/
theorem c10_witness :
    "b" ∈ (process_round_results 1 2 [("a", Outcome.mk true "SUCCESS" "ok")]
        ["a", "b"] (TrackState.mk [] [] [])).next_pending
    ∧ ("b", "NO_RESULT", "") ∈ (process_round_results 1 2
        [("a", Outcome.mk true "SUCCESS" "ok")] ["a", "b"]
        (TrackState.mk [] [] [])).failed_log
    ∧ (process_round_results 1 2 [("a", Outcome.mk true "SUCCESS" "ok")]
        ["a", "b"] (TrackState.mk [] [] [])).final_delta.lookup "b" = none := by
  have h := c10_no_result 1 2 [("a", Outcome.mk true "SUCCESS" "ok")]
    (TrackState.mk [] [] []) ["a", "b"] "b" (by decide) (by decide) (by decide)
  exact ⟨h.2.1, h.2.2.1, h.2.2.2⟩

/-! Tracking-store mark lemmas. -/

theorem can_profile_register_true (st : TrackState) (n : String) (d s : ℤ) :
    (can_profile_register st n d s).1 = true ↔
      is_profile_successful st n d s = false
      ∧ is_profile_already_registered_for_date st n d = false
      ∧ is_slot_full st d s = false := by
  unfold can_profile_register
  split_ifs with h1 h2 h3 <;> simp_all

theorem is_succ_mark_succ_ne (st : TrackState) (m n : String) (d s : ℤ)
    (h : n ≠ m) :
    is_profile_successful (mark_profile_successful st m d s) n d s
      = is_profile_successful st n d s := by
  unfold is_profile_successful mark_profile_successful
  exact decide_eq_decide.mpr (by simp [h])

theorem is_already_mark_already_ne (st : TrackState) (m n : String) (d d2 : ℤ)
    (h : n ≠ m) :
    is_profile_already_registered_for_date (mark_profile_already_registered st m d2) n d
      = is_profile_already_registered_for_date st n d := by
  unfold is_profile_already_registered_for_date mark_profile_already_registered
  exact decide_eq_decide.mpr (by simp [h])

theorem is_succ_mark_already (st : TrackState) (m : String) (d2 : ℤ) (n : String)
    (d s : ℤ) :
    is_profile_successful (mark_profile_already_registered st m d2) n d s
      = is_profile_successful st n d s := rfl

theorem is_already_mark_succ (st : TrackState) (m : String) (d2 s2 : ℤ) (n : String)
    (d : ℤ) :
    is_profile_already_registered_for_date (mark_profile_successful st m d2 s2) n d
      = is_profile_already_registered_for_date st n d := rfl

/-! Further lemmas about the result-processing loop. -/

theorem process_pending_sub (d s : ℤ) (results : List (String × Outcome)) :
    ∀ (pending : List String) (st : TrackState) (n : String),
      (n ∈ (process_round_results d s results pending st).next_pending
       ∨ n ∈ (process_round_results d s results pending st).captcha_error_profiles) →
      n ∈ pending := by
  intro pending
  induction pending with
  | nil =>
    intro st n h
    rcases h with h | h <;> cases h
  | cons m rest ih =>
    intro st n h
    simp only [process_round_results] at h
    split_ifs at h <;> dsimp only at h
    · exact List.mem_cons_of_mem m (ih _ n h)
    · rcases h with h | h
      · exact List.mem_cons_of_mem m (ih _ n (Or.inl h))
      · rcases List.mem_cons.mp h with he | h2
        · exact he ▸ List.mem_cons_self m rest
        · exact List.mem_cons_of_mem m (ih _ n (Or.inr h2))
    · exact List.mem_cons_of_mem m (ih _ n h)
    · exact List.mem_cons_of_mem m (ih _ n h)
    · rcases h with h | h
      · rcases List.mem_cons.mp h with he | h2
        · exact he ▸ List.mem_cons_self m rest
        · exact List.mem_cons_of_mem m (ih _ n (Or.inl h2))
      · exact List.mem_cons_of_mem m (ih _ n (Or.inr h))

theorem process_nodup (d s : ℤ) (results : List (String × Outcome)) :
    ∀ (pending : List String) (st : TrackState), pending.Nodup →
      ((process_round_results d s results pending st).next_pending
        ++ (process_round_results d s results pending st).captcha_error_profiles).Nodup := by
  intro pending
  induction pending with
  | nil =>
    intro st _
    exact List.nodup_nil
  | cons m rest ih =>
    intro st hnd
    have hm : m ∉ rest := (List.nodup_cons.mp hnd).1
    have hnd2 : rest.Nodup := (List.nodup_cons.mp hnd).2
    simp only [process_round_results]
    split_ifs <;> dsimp only
    · exact ih _ hnd2
    · rw [List.nodup_middle, List.nodup_cons]
      refine ⟨fun hc => hm (process_pending_sub d s results rest _ m
        (List.mem_append.mp hc)), ih _ hnd2⟩
    · exact ih _ hnd2
    · exact ih _ hnd2
    · rw [List.cons_append, List.nodup_cons]
      refine ⟨fun hc => hm (process_pending_sub d s results rest _ m
        (List.mem_append.mp hc)), ih _ hnd2⟩

theorem process_st_untouched (d s : ℤ) (results : List (String × Outcome)) :
    ∀ (pending : List String) (st : TrackState) (n : String), n ∉ pending →
      is_profile_successful (process_round_results d s results pending st).st n d s
          = is_profile_successful st n d s
      ∧ is_profile_already_registered_for_date
          (process_round_results d s results pending st).st n d
          = is_profile_already_registered_for_date st n d := by
  intro pending
  induction pending with
  | nil =>
    intro st n _
    exact ⟨rfl, rfl⟩
  | cons m rest ih =>
    intro st n hn
    have hnm : n ≠ m := fun he => hn (he ▸ List.mem_cons_self m rest)
    have hnr : n ∉ rest := fun hr => hn (List.mem_cons_of_mem m hr)
    simp only [process_round_results]
    split_ifs <;> dsimp only
    · obtain ⟨ha, hb⟩ := ih _ n hnr
      refine ⟨?_, ?_⟩
      · rw [ha, is_succ_mark_already _ m d n d s, is_succ_mark_succ_ne st m n d s hnm]
      · rw [hb, is_already_mark_already_ne _ m n d d hnm,
          is_already_mark_succ st m d s n d]
    · exact ih _ n hnr
    · obtain ⟨ha, hb⟩ := ih _ n hnr
      exact ⟨ha, hb⟩
    · obtain ⟨ha, hb⟩ := ih _ n hnr
      refine ⟨ha, ?_⟩
      rw [hb]
      exact is_already_mark_already_ne st m n d d hnm
    · exact ih _ n hnr

theorem process_flags (d s : ℤ) (results : List (String × Outcome)) :
    ∀ (pending : List String) (st : TrackState) (n : String), pending.Nodup →
      (n ∈ (process_round_results d s results pending st).next_pending
       ∨ n ∈ (process_round_results d s results pending st).captcha_error_profiles) →
      is_profile_successful (process_round_results d s results pending st).st n d s
          = is_profile_successful st n d s
      ∧ is_profile_already_registered_for_date
          (process_round_results d s results pending st).st n d
          = is_profile_already_registered_for_date st n d := by
  intro pending
  induction pending with
  | nil =>
    intro st n _ h
    rcases h with h | h <;> cases h
  | cons m rest ih =>
    intro st n hnd h
    have hm : m ∉ rest := (List.nodup_cons.mp hnd).1
    have hnd2 : rest.Nodup := (List.nodup_cons.mp hnd).2
    simp only [process_round_results] at h ⊢
    split_ifs at h ⊢ <;> dsimp only at h ⊢
    · -- success branch: n came from the rest, m was marked but m ≠ n
      have hnr : n ∈ rest := process_pending_sub d s results rest _ n h
      have hnm : n ≠ m := fun he => hm (he ▸ hnr)
      obtain ⟨ha, hb⟩ := ih _ n hnd2 h
      refine ⟨?_, ?_⟩
      · rw [ha, is_succ_mark_already _ m d n d s, is_succ_mark_succ_ne st m n d s hnm]
      · rw [hb, is_already_mark_already_ne _ m n d d hnm,
          is_already_mark_succ st m d s n d]
    · -- captcha-error branch: n is either m itself (untouched) or from the rest
      rcases h with h | h
      · exact ih _ n hnd2 (Or.inl h)
      · rcases List.mem_cons.mp h with he | h2
        · subst he
          exact process_st_untouched d s results rest _ n hm
        · exact ih _ n hnd2 (Or.inr h2)
    · -- slot-full branch: the slot mark leaves both flags unchanged
      have hrec := ih _ n hnd2 h
      exact hrec
    · -- already-registered branch: m ≠ n was marked for the date
      have hnr : n ∈ rest := process_pending_sub d s results rest _ n h
      have hnm : n ≠ m := fun he => hm (he ▸ hnr)
      obtain ⟨ha, hb⟩ := ih _ n hnd2 h
      refine ⟨ha, ?_⟩
      rw [hb]
      exact is_already_mark_already_ne st m n d d hnm
    · -- other-error branch: n is either m itself or from the rest
      rcases h with h | h
      · rcases List.mem_cons.mp h with he | h2
        · subst he
          exact process_st_untouched d s results rest _ n hm
        · exact ih _ n hnd2 (Or.inl h2)
      · exact ih _ n hnd2 (Or.inr h)

/-! Lemmas about one orchestrator round. -/

theorem orch_round_start_st (env : OrchEnv) (S : LoopState) :
    (orch_round_start env S).st = S.st := by
  unfold orch_round_start acquire_captcha
  split_ifs <;> rfl

theorem orch_round_start_pending (env : OrchEnv) (S : LoopState) :
    (orch_round_start env S).pending = S.pending := by
  unfold orch_round_start acquire_captcha
  split_ifs <;> rfl

theorem orch_round_start_trace (env : OrchEnv) (S : LoopState) :
    (orch_round_start env S).trace = S.trace := by
  unfold orch_round_start acquire_captcha
  split_ifs <;> rfl

theorem orch_round_core_info (env : OrchEnv) (d s : ℤ) (w : ℕ) (S1 : LoopState) :
    (orch_round_core env d s w S1).1 =
      { credText := S1.credText, credTs := S1.credTs, credIdx := S1.credIdx,
        capAt := S1.cap, stAt := S1.st, pendingAt := S1.pending,
        results := S1.pending.map fun n =>
          (n, ((register_batch_with_shared_captcha w (env.attempt S1.round)
            env.clock S1.pending S1.credTs S1.t).1.lookup n).getD no_result) } :=
  rfl

theorem orch_round_core_st (env : OrchEnv) (d s : ℤ) (w : ℕ) (S1 : LoopState) :
    (orch_round_core env d s w S1).2.st
      = (process_round_results d s (register_batch_with_shared_captcha w
          (env.attempt S1.round) env.clock S1.pending S1.credTs S1.t).1
          S1.pending S1.st).st := by
  unfold orch_round_core acquire_captcha
  dsimp only
  split_ifs <;> rfl

theorem orch_round_core_pending (env : OrchEnv) (d s : ℤ) (w : ℕ) (S1 : LoopState) :
    (orch_round_core env d s w S1).2.pending
      = (process_round_results d s (register_batch_with_shared_captcha w
          (env.attempt S1.round) env.clock S1.pending S1.credTs S1.t).1
          S1.pending S1.st).next_pending
        ++ (process_round_results d s (register_batch_with_shared_captcha w
          (env.attempt S1.round) env.clock S1.pending S1.credTs S1.t).1
          S1.pending S1.st).captcha_error_profiles := by
  unfold orch_round_core acquire_captcha
  dsimp only

theorem orch_round_core_trace (env : OrchEnv) (d s : ℤ) (w : ℕ) (S1 : LoopState) :
    (orch_round_core env d s w S1).2.trace
      = S1.trace ++ (register_batch_with_shared_captcha w (env.attempt S1.round)
          env.clock S1.pending S1.credTs S1.t).2.1 := by
  unfold orch_round_core acquire_captcha
  dsimp only
  split_ifs <;> rfl

theorem orch_round_stAt (env : OrchEnv) (d s : ℤ) (w : ℕ) (S : LoopState) :
    (orch_round env d s w S).1.stAt = S.st := by
  unfold orch_round
  rw [orch_round_core_info]
  exact orch_round_start_st env S

theorem orch_round_pendingAt (env : OrchEnv) (d s : ℤ) (w : ℕ) (S : LoopState) :
    (orch_round env d s w S).1.pendingAt = S.pending := by
  unfold orch_round
  rw [orch_round_core_info]
  exact orch_round_start_pending env S

theorem orch_round_next (env : OrchEnv) (d s : ℤ) (w : ℕ) (S : LoopState)
    (hnd : S.pending.Nodup)
    (hel : ∀ n ∈ S.pending, (can_profile_register S.st n d s).1 = true) :
    (orch_round env d s w S).2.pending.Nodup
    ∧ (is_slot_full (orch_round env d s w S).2.st d s = false →
        ∀ n ∈ (orch_round env d s w S).2.pending,
          (can_profile_register (orch_round env d s w S).2.st n d s).1 = true) := by
  unfold orch_round
  rw [orch_round_core_pending, orch_round_core_st, orch_round_start_st,
    orch_round_start_pending]
  refine ⟨process_nodup d s _ S.pending S.st hnd, ?_⟩
  intro hslot n hn
  have hmem := List.mem_append.mp hn
  have hin : n ∈ S.pending := process_pending_sub d s _ S.pending S.st n hmem
  have hold := (can_profile_register_true S.st n d s).mp (hel n hin)
  obtain ⟨hfl1, hfl2⟩ := process_flags d s _ S.pending S.st n hnd hmem
  exact (can_profile_register_true _ n d s).mpr
    ⟨by rw [hfl1]; exact hold.1, by rw [hfl2]; exact hold.2.1, hslot⟩

theorem orch_round_trace (env : OrchEnv) (d s : ℤ) (w : ℕ) (S : LoopState)
    (hw : 0 < w) (n : String)
    (h : Event.attemptEv n ∈ (orch_round env d s w S).2.trace) :
    Event.attemptEv n ∈ S.trace ∨ n ∈ S.pending := by
  rw [orch_round, orch_round_core_trace, orch_round_start_trace,
    orch_round_start_pending] at h
  rcases List.mem_append.mp h with h2 | h2
  · exact Or.inl h2
  · have hmem := run_chunks_attempt_mem (env.attempt (orch_round_start env S).round)
      env.clock (orch_round_start env S).credTs
      (batch_chunks w S.pending) (orch_round_start env S).t n h2
    rw [batch_chunks_flatten w hw S.pending] at hmem
    exact Or.inr hmem

/-! Lemmas about the retry loop. -/

theorem orch_loop_eligible (env : OrchEnv) (d s : ℤ) (w : ℕ) :
    ∀ (fuel : ℕ) (S : LoopState), S.pending.Nodup →
      (∀ n ∈ S.pending, (can_profile_register S.st n d s).1 = true) →
      ∀ info ∈ (orch_loop env d s w fuel S).1,
        ∀ n ∈ info.pendingAt, (can_profile_register info.stAt n d s).1 = true := by
  intro fuel
  induction fuel with
  | zero =>
    intro S _ _ info hinfo
    cases hinfo
  | succ fuel ih =>
    intro S hnd hel info hinfo
    simp only [orch_loop] at hinfo
    by_cases hp : S.pending.isEmpty
    · rw [if_pos hp] at hinfo
      cases hinfo
    · rw [if_neg hp] at hinfo
      by_cases hsf : is_slot_full (orch_round env d s w S).2.st d s = true
      · rw [if_pos hsf] at hinfo
        have he : info = (orch_round env d s w S).1 := by simpa using hinfo
        subst he
        rw [orch_round_stAt, orch_round_pendingAt]
        exact hel
      · rw [if_neg hsf] at hinfo
        dsimp only at hinfo
        rcases List.mem_cons.mp hinfo with he | h2
        · subst he
          rw [orch_round_stAt, orch_round_pendingAt]
          exact hel
        · obtain ⟨hnd2, hel2⟩ := orch_round_next env d s w S hnd hel
          exact ih (orch_round env d s w S).2 hnd2
            (hel2 (Bool.not_eq_true _ ▸ by simpa using hsf)) info h2

theorem orch_loop_trace (env : OrchEnv) (d s : ℤ) (w : ℕ) (hw : 0 < w) :
    ∀ (fuel : ℕ) (S : LoopState), S.pending.Nodup →
      (∀ n ∈ S.pending, (can_profile_register S.st n d s).1 = true) →
      ∀ n, Event.attemptEv n ∈ (orch_loop env d s w fuel S).2.trace →
        Event.attemptEv n ∈ S.trace
        ∨ ∃ info ∈ (orch_loop env d s w fuel S).1, n ∈ info.pendingAt := by
  intro fuel
  induction fuel with
  | zero =>
    intro S _ _ n h
    exact Or.inl h
  | succ fuel ih =>
    intro S hnd hel n h
    simp only [orch_loop] at h ⊢
    by_cases hp : S.pending.isEmpty
    · rw [if_pos hp] at h ⊢
      exact Or.inl h
    · rw [if_neg hp] at h ⊢
      by_cases hsf : is_slot_full (orch_round env d s w S).2.st d s = true
      · rw [if_pos hsf] at h ⊢
        rcases orch_round_trace env d s w S hw n h with h2 | h2
        · exact Or.inl h2
        · exact Or.inr ⟨(orch_round env d s w S).1, by simp,
            (orch_round_pendingAt env d s w S).symm ▸ h2⟩
      · rw [if_neg hsf] at h ⊢
        dsimp only at h ⊢
        obtain ⟨hnd2, hel2⟩ := orch_round_next env d s w S hnd hel
        have hel3 := hel2 (by simpa using hsf)
        rcases ih (orch_round env d s w S).2 hnd2 hel3 n h with h2 | h2
        · rcases orch_round_trace env d s w S hw n h2 with h3 | h3
          · exact Or.inl h3
          · exact Or.inr ⟨(orch_round env d s w S).1, by simp,
              (orch_round_pendingAt env d s w S).symm ▸ h3⟩
        · obtain ⟨info, hi, hni⟩ := h2
          exact Or.inr ⟨info, by simp [hi], hni⟩

/-- Claim C3: a submission is never dispatched for a profile already recorded
as succeeded for the pair, already resolved for the pair's date, or against a
pair in the exhausted set; a pair exhausted at entry yields an empty result
with no dispatch at all, as does an empty eligible set; and every profile
dispatched in any round was eligible under the tracking state current at that
round's dispatch. -/
theorem c3_dispatch_safety (env : OrchEnv) (w fuel : ℕ) (d s : ℤ)
    (profiles : List String) (st0 : TrackState) (hw : 0 < w)
    (hnd : profiles.Nodup) :
    (is_slot_full st0 d s = true →
      register_all_profiles_parallel env w fuel d s profiles st0
        = ⟨[], [], [], st0⟩)
    ∧ ((profiles.filter fun n => (can_profile_register st0 n d s).1).isEmpty = true →
      register_all_profiles_parallel env w fuel d s profiles st0
        = ⟨[], [], [], st0⟩)
    ∧ (∀ info ∈ (register_all_profiles_parallel env w fuel d s profiles st0).rounds,
        ∀ n ∈ info.pendingAt, (can_profile_register info.stAt n d s).1 = true)
    ∧ (∀ n, Event.attemptEv n
        ∈ (register_all_profiles_parallel env w fuel d s profiles st0).trace →
        ∃ info ∈ (register_all_profiles_parallel env w fuel d s profiles st0).rounds,
          n ∈ info.pendingAt) := by
  have hndel : (profiles.filter fun n => (can_profile_register st0 n d s).1).Nodup :=
    hnd.filter _
  have helig : ∀ n ∈ (profiles.filter fun n => (can_profile_register st0 n d s).1),
      (can_profile_register st0 n d s).1 = true := by
    intro n hn
    exact (List.mem_filter.mp hn).2
  refine ⟨?_, ?_, ?_, ?_⟩
  · intro h
    simp only [register_all_profiles_parallel]
    rw [if_pos h]
  · intro h
    simp only [register_all_profiles_parallel]
    split_ifs with h1
    · rfl
    · rfl
  · intro info hinfo
    simp only [register_all_profiles_parallel] at hinfo
    split_ifs at hinfo with h1 h2
    · cases hinfo
    · cases hinfo
    · dsimp only at hinfo
      exact orch_loop_eligible env d s w fuel _ hndel helig info hinfo
  · intro n h
    simp only [register_all_profiles_parallel] at h ⊢
    split_ifs at h ⊢ with h1 h2
    · cases h
    · cases h
    · dsimp only at h ⊢
      rcases orch_loop_trace env d s w hw fuel _ hndel helig n h with hc | hc
      · cases hc
      · exact hc

/-- Claim C3 witness: a pair already exhausted at entry returns the empty
result with no rounds and no dispatched attempt, and with one eligible profile
every recorded round dispatches only eligible profiles. -/
theorem c3_witness :
    register_all_profiles_parallel c3_env 1 3 7 9 ["p1"]
        (TrackState.mk [(7, 9)] [] []) = ⟨[], [], [], TrackState.mk [(7, 9)] [] []⟩
    ∧ (∀ info ∈ (register_all_profiles_parallel c3_env 1 3 7 9 ["p1"]
        (TrackState.mk [] [] [])).rounds,
        ∀ n ∈ info.pendingAt,
          (can_profile_register info.stAt n 7 9).1 = true) := by
  constructor
  · exact (c3_dispatch_safety c3_env 1 3 7 9 ["p1"] (TrackState.mk [(7, 9)] [] [])
      (by decide) (by decide)).1 (by decide)
  · exact (c3_dispatch_safety c3_env 1 3 7 9 ["p1"] (TrackState.mk [] [] [])
      (by decide) (by decide)).2.2.1

/-! Credential-tracking lemmas for the retry loop. -/

theorem run_chunks_t (att : String → Outcome) (clock : ℕ → ℤ) (ts : ℤ) :
    ∀ (cs : List (List String)) (t : ℕ),
      (run_chunks att clock ts cs t).2.2 = t + cs.length := by
  intro cs
  induction cs with
  | nil =>
    intro t
    rfl
  | cons c rest ih =>
    intro t
    simp only [run_chunks]
    by_cases hv : is_captcha_valid (clock t) ts 55 = true
    · rw [if_pos hv]
      dsimp only
      rw [ih (t + 1)]
      simp only [List.length_cons]
      omega
    · rw [if_neg hv]
      dsimp only
      rw [ih (t + 1)]
      simp only [List.length_cons]
      omega

theorem round_batch_t_le (env : OrchEnv) (w : ℕ) (S1 : LoopState) :
    S1.t ≤ (round_batch env w S1).2.2 := by
  unfold round_batch register_batch_with_shared_captcha
  rw [run_chunks_t]
  omega

theorem process_capErr_of_results (d s : ℤ) (results : List (String × Outcome)) :
    ∀ (pending : List String) (st : TrackState),
      (∃ e ∈ pending.map (fun n => (n, (results.lookup n).getD no_result)),
        e.2.success = false ∧ e.2.tag = "CAPTCHA_ERROR") →
      (process_round_results d s results pending st).captcha_error_profiles.isEmpty
        = false := by
  intro pending
  induction pending with
  | nil =>
    intro st h
    obtain ⟨e, he, _⟩ := h
    cases he
  | cons m rest ih =>
    intro st h
    obtain ⟨e, he, hprop⟩ := h
    simp only [List.map_cons, List.mem_cons] at he
    rcases he with he | he
    · subst he
      simp only [process_round_results]
      rw [if_neg (by rw [hprop.1]; exact Bool.false_ne_true), if_pos hprop.2]
      rfl
    · have hrec := ih st ⟨e, he, hprop⟩
      simp only [process_round_results]
      split_ifs <;> dsimp only
      · exact ih _ ⟨e, he, hprop⟩
      · rfl
      · exact ih _ ⟨e, he, hprop⟩
      · exact ih _ ⟨e, he, hprop⟩
      · exact ih _ ⟨e, he, hprop⟩

theorem orch_round_start_cred (env : OrchEnv) (S : LoopState)
    (h1 : S.credTs = env.clock S.credIdx) (h2 : S.credIdx < S.t) :
    (orch_round_start env S).credTs = env.clock (orch_round_start env S).credIdx
    ∧ (orch_round_start env S).credIdx < (orch_round_start env S).t
    ∧ S.credIdx ≤ (orch_round_start env S).credIdx := by
  unfold orch_round_start acquire_captcha
  split_ifs <;> dsimp only
  · exact ⟨h1, by omega, le_refl _⟩
  · exact ⟨rfl, by omega, by omega⟩

theorem orch_round_core_cred_noerr (env : OrchEnv) (d s : ℤ) (w : ℕ)
    (S1 : LoopState)
    (hcap : (round_delta env d s w S1).captcha_error_profiles.isEmpty = true) :
    (orch_round_core env d s w S1).2.credIdx = S1.credIdx
    ∧ (orch_round_core env d s w S1).2.credTs = S1.credTs
    ∧ (orch_round_core env d s w S1).2.t = (round_batch env w S1).2.2 := by
  unfold round_delta round_batch at hcap
  unfold orch_round_core acquire_captcha
  dsimp only
  rw [if_pos hcap]
  exact ⟨rfl, rfl, rfl⟩

theorem orch_round_core_cred_err (env : OrchEnv) (d s : ℤ) (w : ℕ)
    (S1 : LoopState)
    (hcap : (round_delta env d s w S1).captcha_error_profiles.isEmpty = false) :
    (orch_round_core env d s w S1).2.credIdx = (round_batch env w S1).2.2
    ∧ (orch_round_core env d s w S1).2.credTs = env.clock ((round_batch env w S1).2.2)
    ∧ (orch_round_core env d s w S1).2.t = (round_batch env w S1).2.2 + 1 := by
  unfold round_delta round_batch at hcap
  unfold orch_round_core acquire_captcha
  dsimp only
  rw [if_neg (by rw [hcap]; exact Bool.false_ne_true)]
  exact ⟨rfl, rfl, rfl⟩

theorem orch_round_info_cred (env : OrchEnv) (d s : ℤ) (w : ℕ) (S : LoopState) :
    (orch_round env d s w S).1.credIdx = (orch_round_start env S).credIdx
    ∧ (orch_round env d s w S).1.credTs = (orch_round_start env S).credTs
    ∧ (orch_round env d s w S).1.results
        = (orch_round_start env S).pending.map fun n =>
            (n, ((round_batch env w (orch_round_start env S)).1.lookup n).getD no_result) := by
  rw [orch_round, orch_round_core_info]
  exact ⟨rfl, rfl, rfl⟩

theorem orch_round_cred (env : OrchEnv) (d s : ℤ) (w : ℕ) (S : LoopState)
    (h1 : S.credTs = env.clock S.credIdx) (h2 : S.credIdx < S.t) :
    ((orch_round env d s w S).2.credTs = env.clock (orch_round env d s w S).2.credIdx
      ∧ (orch_round env d s w S).2.credIdx < (orch_round env d s w S).2.t)
    ∧ (orch_round env d s w S).1.credTs = env.clock (orch_round env d s w S).1.credIdx
    ∧ S.credIdx ≤ (orch_round env d s w S).1.credIdx
    ∧ (orch_round env d s w S).1.credIdx ≤ (orch_round env d s w S).2.credIdx
    ∧ ((∃ e ∈ (orch_round env d s w S).1.results,
          e.2.success = false ∧ e.2.tag = "CAPTCHA_ERROR") →
        (orch_round env d s w S).1.credIdx < (orch_round env d s w S).2.credIdx) := by
  obtain ⟨hs1, hs2, hs3⟩ := orch_round_start_cred env S h1 h2
  obtain ⟨hi1, hi2, hi3⟩ := orch_round_info_cred env d s w S
  have hble := round_batch_t_le env w (orch_round_start env S)
  by_cases hcap : (round_delta env d s w (orch_round_start env S)).captcha_error_profiles.isEmpty
    = true
  · obtain ⟨hc1, hc2, hc3⟩ := orch_round_core_cred_noerr env d s w _ hcap
    rw [orch_round] at *
    refine ⟨⟨by rw [hc1, hc2]; exact hs1, by rw [hc1, hc3]; omega⟩,
      by rw [hi1, hi2]; exact hs1, by rw [hi1]; exact hs3, by rw [hi1, hc1], ?_⟩
    intro hex
    exfalso
    rw [hi3] at hex
    have := process_capErr_of_results d s
      (round_batch env w (orch_round_start env S)).1
      (orch_round_start env S).pending (orch_round_start env S).st hex
    rw [show (process_round_results d s (round_batch env w (orch_round_start env S)).1
      (orch_round_start env S).pending (orch_round_start env S).st)
        = round_delta env d s w (orch_round_start env S) from rfl] at this
    rw [hcap] at this
    cases this
  · have hcap2 : (round_delta env d s w (orch_round_start env S)).captcha_error_profiles.isEmpty
        = false := by
      cases hcc : (round_delta env d s w (orch_round_start env S)).captcha_error_profiles.isEmpty
      · rfl
      · exact absurd hcc hcap
    obtain ⟨hc1, hc2, hc3⟩ := orch_round_core_cred_err env d s w _ hcap2
    rw [orch_round] at *
    refine ⟨⟨by rw [hc1, hc2], by rw [hc1, hc3]; omega⟩,
      by rw [hi1, hi2]; exact hs1, by rw [hi1]; exact hs3,
      by rw [hi1, hc1]; omega, fun _ => by rw [hi1, hc1]; omega⟩

/-! Chain lemmas over the loop. -/

theorem orch_loop_first_credIdx (env : OrchEnv) (d s : ℤ) (w : ℕ) :
    ∀ (fuel : ℕ) (S : LoopState),
      S.credTs = env.clock S.credIdx → S.credIdx < S.t →
      ∀ info, (orch_loop env d s w fuel S).1.get? 0 = some info →
        S.credIdx ≤ info.credIdx := by
  intro fuel
  cases fuel with
  | zero =>
    intro S _ _ info h
    cases h
  | succ fuel =>
    intro S h1 h2 info h
    simp only [orch_loop] at h
    by_cases hp : S.pending.isEmpty
    · rw [if_pos hp] at h
      cases h
    · rw [if_neg hp] at h
      have hcred := orch_round_cred env d s w S h1 h2
      by_cases hsf : is_slot_full (orch_round env d s w S).2.st d s = true
      · rw [if_pos hsf] at h
        have he : (orch_round env d s w S).1 = info := by simpa using h
        subst he
        exact hcred.2.2.1
      · rw [if_neg hsf] at h
        dsimp only at h
        have he : (orch_round env d s w S).1 = info := by simpa using h
        subst he
        exact hcred.2.2.1

theorem orch_loop_credTs (env : OrchEnv) (d s : ℤ) (w : ℕ) :
    ∀ (fuel : ℕ) (S : LoopState),
      S.credTs = env.clock S.credIdx → S.credIdx < S.t →
      ∀ info ∈ (orch_loop env d s w fuel S).1,
        info.credTs = env.clock info.credIdx := by
  intro fuel
  induction fuel with
  | zero =>
    intro S _ _ info h
    cases h
  | succ fuel ih =>
    intro S h1 h2 info h
    simp only [orch_loop] at h
    by_cases hp : S.pending.isEmpty
    · rw [if_pos hp] at h
      cases h
    · rw [if_neg hp] at h
      have hcred := orch_round_cred env d s w S h1 h2
      by_cases hsf : is_slot_full (orch_round env d s w S).2.st d s = true
      · rw [if_pos hsf] at h
        have he : info = (orch_round env d s w S).1 := by simpa using h
        subst he
        exact hcred.2.1
      · rw [if_neg hsf] at h
        dsimp only at h
        rcases List.mem_cons.mp h with he | h2m
        · subst he
          exact hcred.2.1
        · exact ih (orch_round env d s w S).2 hcred.1.1 hcred.1.2 info h2m

theorem orch_loop_chain (env : OrchEnv) (d s : ℤ) (w : ℕ) :
    ∀ (fuel : ℕ) (S : LoopState),
      S.credTs = env.clock S.credIdx → S.credIdx < S.t →
      ∀ (i : ℕ) (info info2 : RoundInfo),
        (orch_loop env d s w fuel S).1.get? i = some info →
        (orch_loop env d s w fuel S).1.get? (i + 1) = some info2 →
        (∃ e ∈ info.results, e.2.success = false ∧ e.2.tag = "CAPTCHA_ERROR") →
        info.credIdx < info2.credIdx := by
  intro fuel
  induction fuel with
  | zero =>
    intro S _ _ i info info2 h0 h1
    cases h0
  | succ fuel ih =>
    intro S h1 h2 i info info2 hg0 hg1 hcap
    simp only [orch_loop] at hg0 hg1
    by_cases hp : S.pending.isEmpty
    · rw [if_pos hp] at hg0
      cases hg0
    · rw [if_neg hp] at hg0 hg1
      have hcred := orch_round_cred env d s w S h1 h2
      by_cases hsf : is_slot_full (orch_round env d s w S).2.st d s = true
      · rw [if_pos hsf] at hg0 hg1
        have : ([(orch_round env d s w S).1].get? (i + 1)) = none := by
          cases i <;> rfl
        rw [this] at hg1
        cases hg1
      · rw [if_neg hsf] at hg0 hg1
        dsimp only at hg0 hg1
        cases i with
        | zero =>
          have he : (orch_round env d s w S).1 = info := by simpa using hg0
          subst he
          have hlt := hcred.2.2.2.2 hcap
          have hge := orch_loop_first_credIdx env d s w fuel (orch_round env d s w S).2
            hcred.1.1 hcred.1.2 info2 (by simpa using hg1)
          omega
        | succ i =>
          exact ih (orch_round env d s w S).2 hcred.1.1 hcred.1.2 i info info2
            (by simpa using hg0) (by simpa using hg1) hcap

/-- Claim C1 (amended): in a retry round whose observed outcomes include at
least one CAPTCHA_ERROR, the orchestrator acquires a fresh credential before
the next round, so with a strictly increasing clock the credential (token,
timestamp) used by the immediately following round differs from the one that
produced the error. A round whose outcomes are only CAPTCHA_EXPIRED does not
force a refresh (see the counterexample). -/
theorem c1_amended (env : OrchEnv) (w fuel : ℕ) (d s : ℤ)
    (profiles : List String) (st0 : TrackState)
    (hmono : ∀ i j : ℕ, i < j → env.clock i < env.clock j)
    (i : ℕ) (info info2 : RoundInfo)
    (h0 : (register_all_profiles_parallel env w fuel d s profiles st0).rounds.get? i
        = some info)
    (h1 : (register_all_profiles_parallel env w fuel d s profiles st0).rounds.get? (i + 1)
        = some info2)
    (hcap : ∃ e ∈ info.results, e.2.success = false ∧ e.2.tag = "CAPTCHA_ERROR") :
    info.credIdx < info2.credIdx
    ∧ (info2.credText, info2.credTs) ≠ (info.credText, info.credTs) := by
  simp only [register_all_profiles_parallel] at h0 h1
  split_ifs at h0 h1 with hc1 hc2
  · cases h0
  · cases h0
  · dsimp only at h0 h1
    have hinv1 : (acquire_captcha env
        { st := st0, t := 0, cap := 0, credText := "", credTs := 0, credIdx := 0,
          pending := profiles.filter fun n => (can_profile_register st0 n d s).1,
          final := [], trace := [], round := 0 }).credTs
        = env.clock (acquire_captcha env
        { st := st0, t := 0, cap := 0, credText := "", credTs := 0, credIdx := 0,
          pending := profiles.filter fun n => (can_profile_register st0 n d s).1,
          final := [], trace := [], round := 0 }).credIdx := rfl
    have hinv2 : (acquire_captcha env
        { st := st0, t := 0, cap := 0, credText := "", credTs := 0, credIdx := 0,
          pending := profiles.filter fun n => (can_profile_register st0 n d s).1,
          final := [], trace := [], round := 0 }).credIdx
        < (acquire_captcha env
        { st := st0, t := 0, cap := 0, credText := "", credTs := 0, credIdx := 0,
          pending := profiles.filter fun n => (can_profile_register st0 n d s).1,
          final := [], trace := [], round := 0 }).t := Nat.zero_lt_one
    have hlt := orch_loop_chain env d s w fuel _ hinv1 hinv2 i info info2 h0 h1 hcap
    have hts : info.credTs = env.clock info.credIdx :=
      orch_loop_credTs env d s w fuel _ hinv1 hinv2 info (List.get?_mem h0)
    have hts2 : info2.credTs = env.clock info2.credIdx :=
      orch_loop_credTs env d s w fuel _ hinv1 hinv2 info2 (List.get?_mem h1)
    refine ⟨hlt, ?_⟩
    intro he
    have hts3 : info2.credTs = info.credTs := congrArg Prod.snd he
    rw [hts, hts2] at hts3
    exact absurd hts3 (ne_of_gt (hmono info.credIdx info2.credIdx hlt))

/-- Claim C1 witness for the amended statement: round 0 observes a
CAPTCHA_ERROR, and round 1 runs with a strictly newer, different credential. -/
theorem c1_amended_witness :
    c1w_res.rounds.get? 0 = some c1w_r0
    ∧ c1w_res.rounds.get? 1 = some c1w_r1
    ∧ c1w_r0.credIdx < c1w_r1.credIdx
    ∧ (c1w_r1.credText, c1w_r1.credTs) ≠ (c1w_r0.credText, c1w_r0.credTs) := by
  have h0 : c1w_res.rounds.get? 0 = some c1w_r0 := by decide
  have h1 : c1w_res.rounds.get? 1 = some c1w_r1 := by decide
  have h := c1_amended c1w_env 1 3 1 1 ["p1"] (TrackState.mk [] [] [])
    (fun i j hij => by
      show (i : ℤ) < (j : ℤ)
      exact_mod_cast hij) 0 c1w_r0 c1w_r1 h0 h1 (by decide)
  exact ⟨h0, h1, h.1, h.2⟩

/-- Claim C1 counterexample: a round all of whose outcomes are
CAPTCHA_EXPIRED (the 55-second safety TTL lapsed at the chunk boundary) does
not trigger a credential refresh; while the 60-second hard TTL still holds at
the top of the next round, the immediately following round carries exactly the
same credential (same token, same acquisition timestamp), contradicting the
claim for expired outcomes. -/
theorem c1_counterexample :
    ((register_all_profiles_parallel c1_env 1 2 1 1 ["p1"]
        (TrackState.mk [] [] [])).rounds.map fun info => (info.credText, info.credTs))
      = [("AAAAA", 0), ("AAAAA", 0)]
    ∧ ((register_all_profiles_parallel c1_env 1 2 1 1 ["p1"]
        (TrackState.mk [] [] [])).rounds.map fun info => info.results)
      = [[("p1", Outcome.mk false "CAPTCHA_EXPIRED" "Captcha expired before batch")],
         [("p1", Outcome.mk false "CAPTCHA_EXPIRED" "Captcha expired before batch")]] := by
  decide

end AutoV2
